import Mathlib

/-!
Verification development for the `uk-pandemic-savings` data pipeline
(`load_nmg_smart.py`).  The pipeline is shallowly embedded: pandas/polars
frames become lists of records, nullable numeric cells become `Option ℚ`,
and each pipeline stage becomes a pure Lean function mirroring the source.
The theorems check the stated properties of the specification against this
embedding.
-/

namespace NMG

/-- A nullable numeric cell: `none` models a pandas/polars missing value
(`NaN` / `null`), `some x` a present number.  Monetary amounts are rationals. -/
abbrev Cell := Option ℚ

/-- Python strings (column names) are modelled as lists of characters. -/
abbrev ColName := List Char

/-- Model of Python `str.lower` on one character (ASCII case folding, which
covers the survey column names). -/
def charLower (c : Char) : Char :=
  if 'A' ≤ c && c ≤ 'Z' then Char.ofNat (c.toNat + 32) else c

/-- Does the second character list start with the first? (helper for the
Python substring test). -/
def beginsWith : List Char → List Char → Bool
  | [], _ => true
  | _ :: _, [] => false
  | a :: as, b :: bs => a == b && beginsWith as bs

/-- Model of the Python substring test `t in s`. -/
def containsSeq (t : List Char) : List Char → Bool
  | [] => t.isEmpty
  | c :: rest => beginsWith t (c :: rest) || containsSeq t rest

/-- Source line 22: `'qincomefreev2_n_' in c.lower()` — the income-source
column naming convention of the survey. -/
def isIncomeCol (c : ColName) : Bool :=
  containsSeq "qincomefreev2_n_".toList (c.map charLower)

/-- One raw survey row: an association list from column name to cell.  A
column absent from the row reads as missing (in pandas, such cells are NaN). -/
abbrev RawRow := List (ColName × Cell)

/-- Reading cell `c` of a raw row (missing when the column is not there). -/
def lookupCell (row : RawRow) (c : ColName) : Cell :=
  ((row.find? (fun p => p.1 == c)).map (fun p => p.2)).join

/-- Source line 22: the income-source columns of a frame. -/
def incomeCols (cols : List ColName) : List ColName := cols.filter isIncomeCol

/-- Source lines 20-33, `sum_income_sources`, as the per-row value of the
derived `total_hh_income` column: with at least one income-source column
present in the frame, missing sources read as 0 (`fillna(0).sum(axis=1)`)
and the row total is reset to missing when every source is missing
(`df.loc[all_missing, ...] = np.nan`); with no income-source columns at all
(the `else` branch) the whole column is missing. -/
def total_hh_income (cols : List ColName) (row : RawRow) : Cell :=
  let ics := incomeCols cols
  if ics.isEmpty then none
  else
    let cells := ics.map (lookupCell row)
    if cells.all (fun c => c.isNone) then none
    else some ((cells.map (fun c => c.getD 0)).sum)

/-- One successfully loaded survey period (one Excel sheet): its year tag and
wave label (source lines 53-59), its column set and its rows.  Reading the
Excel file is I/O outside the embedding; the pipeline is modelled from the
list of periods that loaded successfully (source lines 49-71 skip failures). -/
structure PeriodFrame where
  survey_year : Int
  survey_wave : ColName
  cols : List ColName
  rows : List RawRow

/-- C1: for every raw row, the derived gross income is null exactly when
every income-source column of the frame is missing on that row (in
particular it is null for a frame with no income-source columns at all),
and when at least one source is present it is the sum of the sources with
missing ones read as zero. -/
theorem C1_gross_income_null_vs_zero (cols : List ColName) (row : RawRow) :
    (total_hh_income cols row = none ↔
      ∀ c ∈ incomeCols cols, lookupCell row c = none) ∧
    ((∃ c ∈ incomeCols cols, lookupCell row c ≠ none) →
      total_hh_income cols row =
        some (((incomeCols cols).map (fun c => (lookupCell row c).getD 0)).sum)) ∧
    (incomeCols cols = [] → total_hh_income cols row = none) := by
  unfold total_hh_income
  by_cases hempty : (incomeCols cols).isEmpty
  · rw [List.isEmpty_iff] at hempty
    simp [hempty]
  · rw [List.isEmpty_iff] at hempty
    simp only [List.isEmpty_iff, if_neg hempty]
    by_cases hall : ((incomeCols cols).map (lookupCell row)).all (fun c => c.isNone)
    · rw [List.all_eq_true] at hall
      refine ⟨?_, ?_, fun h => absurd h hempty⟩
      · simp only [if_pos (List.all_eq_true.mpr hall), true_iff]
        intro c hc
        have := hall (lookupCell row c) (List.mem_map_of_mem _ hc)
        simpa [Option.isNone_iff_eq_none] using this
      · rintro ⟨c, hc, hne⟩
        have := hall (lookupCell row c) (List.mem_map_of_mem _ hc)
        rw [Option.isNone_iff_eq_none] at this
        exact absurd this hne
    · refine ⟨?_, ?_, fun h => absurd h hempty⟩
      · simp only [if_neg hall, List.map_map]
        constructor
        · intro h; cases h
        · intro hforall
          exfalso
          apply hall
          rw [List.all_eq_true]
          intro c hc
          obtain ⟨d, hd, rfl⟩ := List.mem_map.mp hc
          simp [Option.isNone_iff_eq_none, hforall d hd]
      · intro _
        simp only [if_neg hall, List.map_map]
        rfl

/-- Concrete two-income-column frame data used by witnesses. -/
def demoCols : List ColName :=
  ["subsid".toList, "QIncomeFreeV2_n_1".toList, "qincomefreev2_n_2".toList]

/-- Concrete raw row used by witnesses: one income source present, one missing. -/
def demoRow : RawRow :=
  [("subsid".toList, some 7), ("QIncomeFreeV2_n_1".toList, some 25),
   ("qincomefreev2_n_2".toList, none)]

/-- Witness for C1 at a concrete frame: one present source of 25 and one
missing source give gross income 25 (not null). -/
theorem C1_gross_income_null_vs_zero_witness :
    total_hh_income demoCols demoRow = some 25 := by
  have h := (C1_gross_income_null_vs_zero demoCols demoRow).2.1
    (by decide)
  rw [h]
  have hcols : incomeCols demoCols =
      ["QIncomeFreeV2_n_1".toList, "qincomefreev2_n_2".toList] := by decide
  have h1 : lookupCell demoRow "QIncomeFreeV2_n_1".toList = some 25 := by decide
  have h2 : lookupCell demoRow "qincomefreev2_n_2".toList = none := by decide
  rw [hcols]
  simp only [List.map_cons, List.map_nil, List.sum_cons, List.sum_nil, h1, h2]
  norm_num

/-- Canonical observation after reconciliation, column selection and renaming
(source lines 73-92): household id, year tag, wave label and the derived
gross income. -/
structure Obs0 where
  household_id : Cell
  survey_year : Int
  survey_wave : ColName
  gross_income : Cell
  deriving DecidableEq, Repr

/-- Source lines 49-71: tag each row of one loaded period with the period's
year and wave and derive `total_hh_income` per row (`sum_income_sources`),
source lines 73-92: keep the core columns and rename `subsid` to
`household_id` and `total_hh_income` to `gross_income`. -/
def reconcilePeriod (f : PeriodFrame) : List Obs0 :=
  f.rows.map (fun r =>
    { household_id := lookupCell r "subsid".toList
      survey_year := f.survey_year
      survey_wave := f.survey_wave
      gross_income := total_hh_income f.cols r })

/-- Source line 73, `pd.concat(all_data, ignore_index=True)`: union of the
loaded periods in load order. -/
def reconcile (frames : List PeriodFrame) : List Obs0 :=
  (frames.map reconcilePeriod).flatten

/-- Observation with the derived period flags (source lines 95-105).  The
`cast(pl.Int32)` 0/1 indicator columns are modelled as `Bool`. -/
structure Obs1 extends Obs0 where
  pandemic_period : Bool
  post_2020 : Bool
  pre_pandemic : Bool
  deriving DecidableEq, Repr

/-- Source lines 95-105: the three period indicator columns, each a pure
function of `survey_year`. -/
def addPeriodFlags (o : Obs0) : Obs1 :=
  { toObs0 := o
    pandemic_period := 2020 ≤ o.survey_year && o.survey_year ≤ 2021
    post_2020 := 2020 ≤ o.survey_year
    pre_pandemic := o.survey_year < 2020 }

/-- Linear-interpolation quantile of a sorted value list at probability
`k/10` (the rule polars `qcut` uses to place decile boundaries): with
`h = (n-1)·k/10` and `i = ⌊h⌋`, interpolate between the `i`-th and the
`(i+1)`-th sorted value (the last value when `i` is the final index). -/
def quantileLinear (xs : List ℚ) (k : ℕ) : ℚ :=
  let n := xs.length
  let h : ℚ := ((n : ℚ) - 1) * k / 10
  let i := (⌊h⌋).toNat
  let lo := xs.getD i 0
  let hi := xs.getD (i + 1) lo
  lo + (h - (i : ℚ)) * (hi - lo)

/-- The nine decile boundaries of an income value list: linear quantiles of
the sorted values at probabilities `0.1, …, 0.9`. -/
def decileBreaks (vs : List ℚ) : List ℚ :=
  (List.range 9).map (fun j => quantileLinear (vs.insertionSort (· ≤ ·)) (j + 1))

/-- Bin assignment of polars `qcut` with right-closed bins: value `v` lands
in bin `1 + #{boundaries strictly below v}`, so bin 1 holds the lowest and
bin 10 the highest incomes.  With `allow_duplicates=True` (source line 110)
the call stays total when boundaries coincide — the bins between two equal
boundaries are simply empty (degenerate) instead of the call raising. -/
def qcutBin (breaks : List ℚ) (v : ℚ) : ℕ :=
  1 + breaks.countP (fun b => b < v)

/-- Observation with the global income decile column (source lines 107-112). -/
structure Obs2 extends Obs1 where
  income_decile : Option ℕ
  deriving DecidableEq, Repr

/-- Source lines 107-112: deciles are computed once, over the full panel's
non-null `gross_income` values; a null income keeps a null decile. -/
def addIncomeDecile (panel : List Obs1) : List Obs2 :=
  let breaks := decileBreaks (panel.filterMap (fun o => o.gross_income))
  panel.map (fun o => { toObs1 := o, income_decile := o.gross_income.map (qcutBin breaks) })

/-- Observation with the estimated-savings column (source lines 136-143). -/
structure Obs3 extends Obs2 where
  estimated_savings : Cell
  deriving DecidableEq, Repr

/-- Observation with the excess-savings column (source lines 164-169). -/
structure Obs4 extends Obs3 where
  excess_savings : Cell
  deriving DecidableEq, Repr

/-- Source lines 136-143: the regime-dependent savings-rate proxy, a
`when/then/otherwise` chain on the period indicator columns (18% when
`pandemic_period`, else 10% when `post_2020`, else 8%); a null income gives
a null product. -/
def estimatedSavings (o : Obs2) : Cell :=
  if o.pandemic_period then o.gross_income.map (fun x => x * (18 / 100))
  else if o.post_2020 then o.gross_income.map (fun x => x * (10 / 100))
  else o.gross_income.map (fun x => x * (8 / 100))

/-- The `with_columns` call of source lines 136-143 over the whole panel. -/
def addEstimatedSavings (panel : List Obs2) : List Obs3 :=
  panel.map (fun o => ⟨o, estimatedSavings o⟩)

/-- Mean of a value list (`Series.mean` over the non-null values). -/
def qmean (l : List ℚ) : ℚ := l.sum / l.length

/-- Source lines 145-161: the baseline, a single run-scoped scalar.  First
the mean of the non-null estimated savings of survey years 2016-2019; when
that set is empty, the mean of the non-null estimated savings of all
pre-2020 years; when that too is empty, the constant 2000.  (The source also
guards `baseline_mean is None` in the first branch, which cannot fire on a
non-empty series of non-null values.) -/
def baselineSavings (panel : List Obs3) : ℚ :=
  let w := (panel.filter (fun o => 2016 ≤ o.survey_year && o.survey_year < 2020)).filterMap
    (fun o => o.estimated_savings)
  if w.isEmpty then
    let w2 := (panel.filter (fun o => o.survey_year < 2020)).filterMap
      (fun o => o.estimated_savings)
    if w2.isEmpty then 2000 else qmean w2
  else qmean w

/-- Source lines 164-169: excess savings = estimated savings minus the
baseline, clipped below at 0 (`clip(lower_bound=0)`); null propagates
through both the subtraction and the clip. -/
def excessSavings (b : ℚ) (o : Obs3) : Cell :=
  o.estimated_savings.map (fun s => max 0 (s - b))

/-- Source lines 123-211, `calculate_excess_savings`, restricted to its
frame-transforming part (the printed period statistics and the national
scaling report of lines 171-209 are modelled separately as
`nationalScaler`). -/
def calculate_excess_savings (panel : List Obs2) : List Obs4 :=
  let p := addEstimatedSavings panel
  let b := baselineSavings p
  p.map (fun o => ⟨o, excessSavings b o⟩)

/-- Source lines 73-120, `load_and_clean_nmg`, from the list of successfully
loaded period frames: reconcile, add period flags and global income deciles,
then compute estimated and excess savings. -/
def load_and_clean_nmg (frames : List PeriodFrame) : List Obs4 :=
  calculate_excess_savings (addIncomeDecile ((reconcile frames).map addPeriodFlags))

/-- C2: every observation produced by `calculate_excess_savings` has
`excess_savings = max 0 (estimated_savings − baseline)` when the estimated
savings are present, `excess_savings` null exactly when `estimated_savings`
is null, and `excess_savings` never negative. -/
theorem C2_excess_nonneg_null_propagates (panel : List Obs2) (o : Obs4)
    (ho : o ∈ calculate_excess_savings panel) :
    (o.excess_savings = o.estimated_savings.map
      (fun s => max 0 (s - baselineSavings (addEstimatedSavings panel)))) ∧
    (o.excess_savings = none ↔ o.estimated_savings = none) ∧
    (∀ v, o.excess_savings = some v → 0 ≤ v) := by
  unfold calculate_excess_savings at ho
  obtain ⟨o3, ho3, rfl⟩ := List.mem_map.mp ho
  refine ⟨rfl, ?_, ?_⟩
  · cases h : o3.estimated_savings <;> simp [excessSavings, h]
  · intro v hv
    cases h : o3.estimated_savings with
    | none => rw [excessSavings, h] at hv; cases hv
    | some s =>
      rw [excessSavings, h] at hv
      rw [show Option.map (fun s => max 0 (s - baselineSavings (addEstimatedSavings panel)))
          (some s) = some (max 0 (s - baselineSavings (addEstimatedSavings panel))) from rfl,
        Option.some_inj] at hv
      rw [← hv]
      exact le_max_left 0 _

/-- Concrete single-observation cleaned panel used by witnesses: year 2016,
income 25000 (so estimated savings 2000, baseline 2000, excess 0). -/
def demoObs2 : Obs2 :=
  { household_id := some 1, survey_year := 2016, survey_wave := "2016".toList,
    gross_income := some 25000, pandemic_period := false, post_2020 := false,
    pre_pandemic := true, income_decile := some 1 }

/-- The observation `calculate_excess_savings` produces from `demoObs2`. -/
def demoOut4 : Obs4 :=
  { toObs2 := demoObs2, estimated_savings := some 2000, excess_savings := some 0 }

/-- Witness for C2 on the concrete one-row panel: the produced excess of 0
is non-negative. -/
theorem C2_excess_nonneg_null_propagates_witness :
    demoOut4 ∈ calculate_excess_savings [demoObs2] ∧ (0 : ℚ) ≤ 0 := by
  have hest : estimatedSavings demoObs2 = some 2000 := by
    simp only [estimatedSavings, demoObs2]
    norm_num
  have hadd : addEstimatedSavings [demoObs2] = [⟨demoObs2, some 2000⟩] := by
    simp [addEstimatedSavings, hest]
  have hwin : (List.filter (fun o => 2016 ≤ o.survey_year && o.survey_year < 2020)
      [(⟨demoObs2, some 2000⟩ : Obs3)]).filterMap (fun o => o.estimated_savings) =
      [(2000 : ℚ)] := by decide
  have hbase : baselineSavings [⟨demoObs2, some 2000⟩] = 2000 := by
    simp only [baselineSavings, hwin, List.isEmpty_cons, Bool.false_eq_true, if_false, qmean,
      List.sum_cons, List.sum_nil, List.length_cons, List.length_nil]
    norm_num
  have hmem : demoOut4 ∈ calculate_excess_savings [demoObs2] := by
    simp only [calculate_excess_savings, hadd, hbase, List.map_cons, List.map_nil]
    have hexc : excessSavings 2000 ⟨demoObs2, some 2000⟩ = some 0 := by
      simp only [excessSavings]
      norm_num
    rw [hexc]
    exact List.mem_singleton.mpr rfl
  exact ⟨hmem, ((C2_excess_nonneg_null_propagates [demoObs2] demoOut4 hmem).2.2) 0 rfl⟩

/-- The savings rate as claim C3 words it: a pure function of the period
year (8% before 2020, 18% in 2020 and 2021, 10% from 2022 on). -/
def specSavingsRate (y : Int) : ℚ :=
  if y < 2020 then 8 / 100 else if y ≤ 2021 then 18 / 100 else 10 / 100

/-- Helper: on any observation whose period flags are consistent with its
survey year (as `addPeriodFlags` makes them), the `when/then/otherwise`
chain computes income times the year-determined rate. -/
lemma estimatedSavings_eq_rate (o : Obs2)
    (hpan : o.pandemic_period = (2020 ≤ o.survey_year && o.survey_year ≤ 2021))
    (hpost : o.post_2020 = decide (2020 ≤ o.survey_year)) :
    estimatedSavings o = o.gross_income.map (fun x => x * specSavingsRate o.survey_year) := by
  unfold estimatedSavings specSavingsRate
  rw [hpan, hpost]
  by_cases h1 : 2020 ≤ o.survey_year ∧ o.survey_year ≤ 2021
  · have hb : (2020 ≤ o.survey_year && o.survey_year ≤ 2021) = true := by
      simp [h1.1, h1.2]
    have hy1 : ¬ o.survey_year < 2020 := by omega
    have hy2 : o.survey_year ≤ 2021 := h1.2
    simp [hb, hy1, hy2]
  · have hb : (2020 ≤ o.survey_year && o.survey_year ≤ 2021) = false := by
      rcases not_and_or.mp h1 with h | h <;> simp [h]
    simp only [hb, Bool.false_eq_true, if_false]
    by_cases h2 : 2020 ≤ o.survey_year
    · have hy1 : ¬ o.survey_year < 2020 := by omega
      have hy2 : ¬ o.survey_year ≤ 2021 := by
        rcases not_and_or.mp h1 with h | h
        · exact absurd h2 h
        · exact h
      simp [h2, hy1, hy2]
    · have hy1 : o.survey_year < 2020 := by omega
      simp [h2, hy1]

/-- Helper: under the same flag consistency, estimated savings are null
exactly when gross income is null. -/
lemma estimatedSavings_none_iff (o : Obs2)
    (hpan : o.pandemic_period = (2020 ≤ o.survey_year && o.survey_year ≤ 2021))
    (hpost : o.post_2020 = decide (2020 ≤ o.survey_year)) :
    (estimatedSavings o = none ↔ o.gross_income = none) := by
  rw [estimatedSavings_eq_rate o hpan hpost]
  cases o.gross_income <;> simp

/-- C3: in the full pipeline every observation's estimated savings equal its
gross income times the rate determined purely by its survey year, and are
null exactly when its gross income is null. -/
theorem C3_estimated_savings_rate (frames : List PeriodFrame) (o : Obs4)
    (ho : o ∈ load_and_clean_nmg frames) :
    (o.estimated_savings = o.gross_income.map (fun x => x * specSavingsRate o.survey_year)) ∧
    (o.estimated_savings = none ↔ o.gross_income = none) := by
  unfold load_and_clean_nmg calculate_excess_savings at ho
  obtain ⟨o3, ho3, rfl⟩ := List.mem_map.mp ho
  unfold addEstimatedSavings at ho3
  obtain ⟨o2, ho2, rfl⟩ := List.mem_map.mp ho3
  unfold addIncomeDecile at ho2
  obtain ⟨o1, ho1, rfl⟩ := List.mem_map.mp ho2
  obtain ⟨o0, ho0, rfl⟩ := List.mem_map.mp ho1
  exact ⟨estimatedSavings_eq_rate _ rfl rfl, estimatedSavings_none_iff _ rfl rfl⟩

/-- C4: the baseline is the total fallback chain — mean estimated savings of
the non-null observations with survey year in 2016-2019 when that set is
non-empty, else the mean over all non-null pre-2020 observations when that
set is non-empty, else the constant 2000.  The chain is a total function by
construction, so it never raises. -/
theorem C4_baseline_fallback_chain (panel : List Obs3) :
    ((panel.filter (fun o => 2016 ≤ o.survey_year && o.survey_year ≤ 2019)).filterMap
        (fun o => o.estimated_savings) ≠ [] →
      baselineSavings panel = qmean ((panel.filter
        (fun o => 2016 ≤ o.survey_year && o.survey_year ≤ 2019)).filterMap
          (fun o => o.estimated_savings))) ∧
    ((panel.filter (fun o => 2016 ≤ o.survey_year && o.survey_year ≤ 2019)).filterMap
        (fun o => o.estimated_savings) = [] →
      (panel.filter (fun o => o.survey_year < 2020)).filterMap
        (fun o => o.estimated_savings) ≠ [] →
      baselineSavings panel = qmean ((panel.filter (fun o => o.survey_year < 2020)).filterMap
        (fun o => o.estimated_savings))) ∧
    ((panel.filter (fun o => 2016 ≤ o.survey_year && o.survey_year ≤ 2019)).filterMap
        (fun o => o.estimated_savings) = [] →
      (panel.filter (fun o => o.survey_year < 2020)).filterMap
        (fun o => o.estimated_savings) = [] →
      baselineSavings panel = 2000) := by
  have hfilter : panel.filter (fun o => 2016 ≤ o.survey_year && o.survey_year < 2020) =
      panel.filter (fun o => 2016 ≤ o.survey_year && o.survey_year ≤ 2019) := by
    apply List.filter_congr
    intro o _
    have hd : decide (o.survey_year < 2020) = decide (o.survey_year ≤ 2019) :=
      decide_eq_decide.mpr (by omega)
    rw [hd]
  unfold baselineSavings
  rw [hfilter]
  refine ⟨fun hne => ?_, fun he hne => ?_, fun he hpe => ?_⟩
  · rw [if_neg (by simpa [List.isEmpty_iff] using hne)]
  · rw [if_pos (by simpa [List.isEmpty_iff] using he),
      if_neg (by simpa [List.isEmpty_iff] using hne)]
  · rw [if_pos (by simpa [List.isEmpty_iff] using he),
      if_pos (by simpa [List.isEmpty_iff] using hpe)]

/-- Witness for C4 on the concrete one-row panel (year 2016, estimated
savings 2000): the primary window is non-empty and the baseline is its mean. -/
theorem C4_baseline_fallback_chain_witness :
    baselineSavings [⟨demoObs2, some 2000⟩] = 2000 := by
  have h := (C4_baseline_fallback_chain [⟨demoObs2, some 2000⟩]).1 (by decide)
  rw [h]
  have : (List.filter (fun o => 2016 ≤ o.survey_year && o.survey_year ≤ 2019)
      [(⟨demoObs2, some 2000⟩ : Obs3)]).filterMap (fun o => o.estimated_savings) =
      [(2000 : ℚ)] := by decide
  rw [this]
  norm_num [qmean]

/-- C10: the pipeline preserves the panel: the final table has exactly one
row per reconciled input row (the sum of the loaded periods' row counts),
in the same order, and the reconciled core fields (household id, survey
year, wave, gross income) of each position are unchanged — the downstream
stages only add columns. -/
theorem C10_row_count_and_order_preserved (frames : List PeriodFrame) :
    (load_and_clean_nmg frames).length = (frames.map (fun f => f.rows.length)).sum ∧
    ∀ i : ℕ, ((load_and_clean_nmg frames)[i]?).map
        (fun o => (o.household_id, o.survey_year, o.survey_wave, o.gross_income)) =
      ((reconcile frames)[i]?).map
        (fun o => (o.household_id, o.survey_year, o.survey_wave, o.gross_income)) := by
  constructor
  · have hlen1 : (load_and_clean_nmg frames).length = (reconcile frames).length := by
      simp [load_and_clean_nmg, calculate_excess_savings, addEstimatedSavings, addIncomeDecile]
    have hlen2 : (reconcile frames).length = (frames.map (fun f => f.rows.length)).sum := by
      rw [reconcile, List.length_flatten, List.map_map]
      apply congrArg List.sum
      apply List.map_congr_left
      intro f _
      simp [Function.comp, reconcilePeriod]
    rw [hlen1, hlen2]
  · intro i
    simp only [load_and_clean_nmg, calculate_excess_savings, addEstimatedSavings,
      addIncomeDecile, List.map_map, List.getElem?_map]
    cases (reconcile frames)[i]? <;> rfl

/-- Quantiles of a one-value list are that value. -/
lemma quantileLinear_singleton (x : ℚ) (k : ℕ) : quantileLinear [x] k = x := by
  simp only [quantileLinear, List.length_cons, List.length_nil]
  norm_num

/-- Concrete one-period, one-row input frame for full-pipeline witnesses:
year 2016, one income-source column holding 25. -/
def demoFrame : PeriodFrame :=
  { survey_year := 2016
    survey_wave := "2016".toList
    cols := ["subsid".toList, "qincomefreev2_n_1".toList]
    rows := [[("subsid".toList, some 7), ("qincomefreev2_n_1".toList, some 25)]] }

/-- The observation the full pipeline produces from `demoFrame`: income 25,
pre-pandemic flags, decile 1, estimated savings 2 (8%), baseline 2, excess 0. -/
def demoPipeOut : Obs4 :=
  { household_id := some 7, survey_year := 2016, survey_wave := "2016".toList,
    gross_income := some 25, pandemic_period := false, post_2020 := false,
    pre_pandemic := true, income_decile := some 1,
    estimated_savings := some 2, excess_savings := some 0 }

/-- The reconciled observation of `demoFrame`. -/
def demoO0 : Obs0 :=
  { household_id := some 7, survey_year := 2016, survey_wave := "2016".toList,
    gross_income := some 25 }

/-- The flagged observation of `demoFrame`. -/
def demoO1 : Obs1 :=
  { toObs0 := demoO0, pandemic_period := false, post_2020 := false, pre_pandemic := true }

/-- The decile-carrying observation of `demoFrame`. -/
def demoO2 : Obs2 := { toObs1 := demoO1, income_decile := some 1 }

/-- The estimated-savings observation of `demoFrame`. -/
def demoO3 : Obs3 := { toObs2 := demoO2, estimated_savings := some 2 }

/-- Evaluation of the full pipeline on the concrete one-row frame. -/
lemma load_and_clean_demoFrame : load_and_clean_nmg [demoFrame] = [demoPipeOut] := by
  have htot : total_hh_income demoFrame.cols
      [("subsid".toList, some 7), ("qincomefreev2_n_1".toList, some 25)] = some 25 := by
    have hcols : incomeCols demoFrame.cols = ["qincomefreev2_n_1".toList] := by decide
    have hlook : lookupCell [("subsid".toList, some 7), ("qincomefreev2_n_1".toList, some 25)]
        "qincomefreev2_n_1".toList = some 25 := by decide
    simp only [total_hh_income, hcols, List.map_cons, List.map_nil, hlook]
    norm_num
  have hsub : lookupCell [("subsid".toList, some 7), ("qincomefreev2_n_1".toList, some 25)]
      "subsid".toList = some 7 := by decide
  have hO0 : reconcile [demoFrame] = [demoO0] := by
    simp only [reconcile, reconcilePeriod, List.map_cons, List.map_nil, List.flatten]
    rw [show demoFrame.rows = [[("subsid".toList, some 7),
      ("qincomefreev2_n_1".toList, some 25)]] from rfl]
    simp only [List.map_cons, List.map_nil, htot, hsub, List.append_nil]
    rfl
  have hO1 : (reconcile [demoFrame]).map addPeriodFlags = [demoO1] := by
    rw [hO0]
    simp only [List.map_cons, List.map_nil]
    rw [show addPeriodFlags demoO0 = demoO1 from by decide]
  have hbreaks : decileBreaks [25] = (List.range 9).map (fun _ => (25 : ℚ)) := by
    simp only [decileBreaks]
    have hsort : List.insertionSort (· ≤ ·) [(25 : ℚ)] = [25] := rfl
    rw [hsort]
    exact List.map_congr_left (fun j _ => quantileLinear_singleton 25 (j + 1))
  have hbin : qcutBin ((List.range 9).map (fun _ => (25 : ℚ))) 25 = 1 := by
    simp only [qcutBin]
    rw [List.countP_eq_zero.mpr]
    intro a ha
    obtain ⟨j, hj, rfl⟩ := List.mem_map.mp ha
    simp
  have hO2 : addIncomeDecile ((reconcile [demoFrame]).map addPeriodFlags) = [demoO2] := by
    rw [addIncomeDecile, hO1]
    simp only [List.filterMap_cons, List.filterMap_nil, List.map_cons, List.map_nil]
    rw [show demoO1.gross_income = some 25 from rfl,
      show Option.map (qcutBin (decileBreaks [25])) (some (25 : ℚ)) =
        some (qcutBin (decileBreaks [25]) 25) from rfl, hbreaks, hbin]
    rfl
  have hest : estimatedSavings demoO2 = some 2 := by
    simp only [estimatedSavings]
    rw [show demoO2.pandemic_period = false from rfl, show demoO2.post_2020 = false from rfl,
      show demoO2.gross_income = some 25 from rfl]
    norm_num
  have hO3 : addEstimatedSavings (addIncomeDecile ((reconcile [demoFrame]).map addPeriodFlags)) =
      [demoO3] := by
    rw [addEstimatedSavings, hO2]
    simp only [List.map_cons, List.map_nil, hest]
    rfl
  have hwin : (List.filter (fun o => 2016 ≤ o.survey_year && o.survey_year < 2020)
      [demoO3]).filterMap (fun o => o.estimated_savings) = [(2 : ℚ)] := by decide
  have hbase : baselineSavings [demoO3] = 2 := by
    simp only [baselineSavings, hwin, List.isEmpty_cons, Bool.false_eq_true, if_false, qmean,
      List.sum_cons, List.sum_nil, List.length_cons, List.length_nil]
    norm_num
  rw [load_and_clean_nmg, calculate_excess_savings, hO3, hbase]
  simp only [List.map_cons, List.map_nil]
  have hexc : excessSavings 2 demoO3 = some 0 := by
    simp only [excessSavings]
    rw [show demoO3.estimated_savings = some 2 from rfl]
    norm_num
  rw [hexc]
  rfl

/-- Witness for C3 on the concrete one-row frame: the pipeline observation
for year 2016 carries estimated savings 2 = 25 · 8%. -/
theorem C3_estimated_savings_rate_witness :
    demoPipeOut ∈ load_and_clean_nmg [demoFrame] ∧
    demoPipeOut.estimated_savings =
      demoPipeOut.gross_income.map (fun x => x * specSavingsRate demoPipeOut.survey_year) := by
  have hmem : demoPipeOut ∈ load_and_clean_nmg [demoFrame] := by
    rw [load_and_clean_demoFrame]
    exact List.mem_singleton.mpr rfl
  exact ⟨hmem, (C3_estimated_savings_rate [demoFrame] demoPipeOut hmem).1⟩

/-- One row of the yearly aggregate before the trend and cumulative columns
(source lines 216-223). -/
structure YearRow0 where
  survey_year : Int
  avg_income : Cell
  avg_savings : Cell
  avg_excess_savings : Cell
  n_households : ℕ
  n_with_income : ℕ
  deriving DecidableEq, Repr

/-- One row of the finished yearly aggregate (source lines 225-258). -/
structure YearRow extends YearRow0 where
  counterfactual_savings : Cell
  cumulative_excess : Cell
  deriving DecidableEq, Repr

/-- Mean of a polars column (over a group): null when every value is null,
else the mean of the non-null values. -/
def meanOpt (l : List ℚ) : Cell := if l.isEmpty then none else some (qmean l)

/-- The aggregate row of one survey year (source lines 216-223): means of
the non-null incomes, estimated savings and excesses of that year's
observations, the row count and the non-null-income count. -/
def yearRowOf (panel : List Obs4) (y : Int) : YearRow0 :=
  let rows := panel.filter (fun o => o.survey_year == y)
  { survey_year := y
    avg_income := meanOpt (rows.filterMap (fun o => o.gross_income))
    avg_savings := meanOpt (rows.filterMap (fun o => o.estimated_savings))
    avg_excess_savings := meanOpt (rows.filterMap (fun o => o.excess_savings))
    n_households := rows.length
    n_with_income := (rows.filterMap (fun o => o.gross_income)).length }

/-- Source lines 216-223: group by `survey_year`, aggregate the per-year
means and counts, and sort ascending by year. -/
def yearlyBase (panel : List Obs4) : List YearRow0 :=
  (((panel.map (fun o => o.survey_year)).dedup).insertionSort (· ≤ ·)).map (yearRowOf panel)

/-- Degree-one least-squares fit, `np.polyfit(x, y, 1)`: the (slope,
intercept) pair minimising the squared residuals, by the standard closed
form (well-defined whenever at least two x-values differ, which holds for
the distinct years the pipeline fits on). -/
def polyfit1 (pts : List (ℚ × ℚ)) : ℚ × ℚ :=
  let n : ℚ := pts.length
  let sx := (pts.map (fun p => p.1)).sum
  let sy := (pts.map (fun p => p.2)).sum
  let sxx := (pts.map (fun p => p.1 * p.1)).sum
  let sxy := (pts.map (fun p => p.1 * p.2)).sum
  let slope := (n * sxy - sx * sy) / (n * sxx - sx * sx)
  (slope, (sy - slope * sx) / n)

/-- The fitted pair satisfies the two normal equations of least squares —
this is what makes `polyfit1` the ordinary-least-squares line. -/
lemma polyfit1_normal_equations (pts : List (ℚ × ℚ))
    (hn : (pts.length : ℚ) ≠ 0)
    (hd : (pts.length : ℚ) * (pts.map (fun p => p.1 * p.1)).sum -
      (pts.map (fun p => p.1)).sum * (pts.map (fun p => p.1)).sum ≠ 0) :
    (polyfit1 pts).1 * (pts.map (fun p => p.1)).sum + (polyfit1 pts).2 * pts.length =
      (pts.map (fun p => p.2)).sum ∧
    (polyfit1 pts).1 * (pts.map (fun p => p.1 * p.1)).sum +
      (polyfit1 pts).2 * (pts.map (fun p => p.1)).sum =
      (pts.map (fun p => p.1 * p.2)).sum := by
  unfold polyfit1
  constructor
  · field_simp
    ring
  · field_simp
    ring

/-- Polars `cum_sum` over a nullable column (source lines 255-258), fused
with the `with_columns` that appends the trend and cumulative columns: a
null entry stays null and contributes nothing to the running total; a
non-null entry advances the accumulator. -/
def addCumulative (acc : ℚ) (cf : Int → Cell) : List YearRow0 → List YearRow
  | [] => []
  | r :: t =>
    match r.avg_excess_savings with
    | none => { toYearRow0 := r, counterfactual_savings := cf r.survey_year,
                cumulative_excess := none } :: addCumulative acc cf t
    | some v => { toYearRow0 := r, counterfactual_savings := cf r.survey_year,
                  cumulative_excess := some (acc + v) } :: addCumulative (acc + v) cf t

/-- Source lines 225-253: the 2016-2019 window of the yearly table and the
year/savings pairs of its rows with non-null mean savings (the numpy
`isnan` mask). -/
def preWindow (yearly : List YearRow0) : List YearRow0 :=
  yearly.filter (fun r => 2016 ≤ r.survey_year && r.survey_year < 2020)

/-- The (year, mean savings) points the trend is fitted on. -/
def trendPoints (yearly : List YearRow0) : List (ℚ × ℚ) :=
  (preWindow yearly).filterMap (fun r => r.avg_savings.map (fun s => ((r.survey_year : ℚ), s)))

/-- Source lines 225-253: the counterfactual column as a function of the
year — the fitted line evaluated at every year when the 2016-2019 window
has at least two rows and at least two of them carry non-null mean savings,
all-null otherwise. -/
def counterfactualFn (yearly : List YearRow0) : Int → Cell :=
  if 2 ≤ (preWindow yearly).length then
    if 2 ≤ (trendPoints yearly).length then
      fun y => some ((polyfit1 (trendPoints yearly)).1 * (y : ℚ) +
        (polyfit1 (trendPoints yearly)).2)
    else fun _ => none
  else fun _ => none

/-- Source lines 214-260, `create_time_series`: yearly aggregates with the
counterfactual trend and the cumulative excess columns. -/
def create_time_series (panel : List Obs4) : List YearRow :=
  let yearly := yearlyBase panel
  addCumulative 0 (counterfactualFn yearly) yearly

/-- The cumulative/trend stage only adds columns: stripping them gives back
the input rows. -/
lemma addCumulative_map_toYearRow0 (cf : Int → Cell) :
    ∀ (l : List YearRow0) (acc : ℚ),
      (addCumulative acc cf l).map (fun r => r.toYearRow0) = l := by
  intro l
  induction l with
  | nil => intro acc; rfl
  | cons r0 t ih =>
    intro acc
    cases h : r0.avg_excess_savings with
    | none => simp only [addCumulative, h, List.map_cons, ih]
    | some v => simp only [addCumulative, h, List.map_cons, ih]

/-- Mapping a function over a present optional value. -/
lemma optMapSome {α β : Type} (f : α → β) (x : α) : Option.map f (some x) = some (f x) := rfl

/-- Projection of the per-year fields through the column-adding constructor. -/
lemma yearRowMk_avg (r0 : YearRow0) (c k : Cell) :
    (YearRow.mk r0 c k).avg_excess_savings = r0.avg_excess_savings := rfl

/-- Projection of the cumulative column out of the constructor. -/
lemma yearRowMk_cum (r0 : YearRow0) (c k : Cell) :
    (YearRow.mk r0 c k).cumulative_excess = k := rfl

/-- Extracting the mean excesses drops a null head. -/
lemma filterMap_avg_cons_none {q : YearRow0} (t : List YearRow0)
    (h : q.avg_excess_savings = none) :
    (q :: t).filterMap (fun x => x.avg_excess_savings) =
      t.filterMap (fun x => x.avg_excess_savings) := by
  simp [List.filterMap_cons, h]

/-- Extracting the mean excesses keeps a non-null head. -/
lemma filterMap_avg_cons_some {q : YearRow0} (t : List YearRow0) {v : ℚ}
    (h : q.avg_excess_savings = some v) :
    (q :: t).filterMap (fun x => x.avg_excess_savings) =
      v :: t.filterMap (fun x => x.avg_excess_savings) := by
  simp [List.filterMap_cons, h]

/-- Characterisation of the cumulative column: at every position it is null
exactly when that year's mean excess is null, and otherwise equals the
accumulator plus the sum of the non-null mean excesses of the years up to
and including that position. -/
lemma addCumulative_cum_eq (cf : Int → Cell) :
    ∀ (l : List YearRow0) (acc : ℚ) (i : ℕ) (r : YearRow),
      (addCumulative acc cf l)[i]? = some r →
      r.cumulative_excess = r.avg_excess_savings.map (fun _ =>
        acc + ((l.take (i + 1)).filterMap (fun q => q.avg_excess_savings)).sum) := by
  intro l
  induction l with
  | nil => intro acc i r hr; simp [addCumulative] at hr
  | cons r0 t ih =>
    intro acc i r hr
    cases h : r0.avg_excess_savings with
    | none =>
      simp only [addCumulative, h] at hr
      cases i with
      | zero =>
        rw [List.getElem?_cons_zero, Option.some_inj] at hr
        subst hr
        rw [yearRowMk_avg, h]
        rfl
      | succ j =>
        rw [List.getElem?_cons_succ] at hr
        rw [ih acc j r hr, List.take_succ_cons, filterMap_avg_cons_none _ h]
    | some v =>
      simp only [addCumulative, h] at hr
      cases i with
      | zero =>
        rw [List.getElem?_cons_zero, Option.some_inj] at hr
        subst hr
        rw [List.take_succ_cons, List.take_zero, filterMap_avg_cons_some _ h]
        rw [yearRowMk_avg, h, optMapSome, yearRowMk_cum, Option.some_inj]
        norm_num
      | succ j =>
        rw [List.getElem?_cons_succ] at hr
        rw [ih (acc + v) j r hr, List.take_succ_cons, filterMap_avg_cons_some _ h,
          List.sum_cons]
        cases hre : r.avg_excess_savings with
        | none => rfl
        | some w =>
          rw [optMapSome, optMapSome, Option.some_inj, add_assoc]

/-- With non-negative mean excesses, every cumulative value dominates the
starting accumulator. -/
lemma addCumulative_cum_ge_acc (cf : Int → Cell) :
    ∀ (l : List YearRow0) (acc : ℚ),
      (∀ q ∈ l, ∀ v, q.avg_excess_savings = some v → 0 ≤ v) →
      ∀ (i : ℕ) (r : YearRow) (a : ℚ),
        (addCumulative acc cf l)[i]? = some r → r.cumulative_excess = some a →
        acc ≤ a := by
  intro l
  induction l with
  | nil => intro acc _ i r a hr _; simp [addCumulative] at hr
  | cons r0 t ih =>
    intro acc hnn i r a hr ha
    cases h : r0.avg_excess_savings with
    | none =>
      simp only [addCumulative, h] at hr
      cases i with
      | zero =>
        rw [List.getElem?_cons_zero, Option.some_inj] at hr
        subst hr
        have ha2 : (none : Cell) = some a := ha
        cases ha2
      | succ j =>
        rw [List.getElem?_cons_succ] at hr
        exact ih acc (fun q hq => hnn q (List.mem_cons_of_mem _ hq)) j r a hr ha
    | some v =>
      have hv : 0 ≤ v := hnn r0 (List.mem_cons_self _ _) v h
      simp only [addCumulative, h] at hr
      cases i with
      | zero =>
        rw [List.getElem?_cons_zero, Option.some_inj] at hr
        subst hr
        have ha2 : some (acc + v) = some a := ha
        have ha3 : acc + v = a := Option.some_inj.mp ha2
        linarith
      | succ j =>
        rw [List.getElem?_cons_succ] at hr
        have := ih (acc + v) (fun q hq => hnn q (List.mem_cons_of_mem _ hq)) j r a hr ha
        linarith

/-- With non-negative mean excesses the cumulative column is monotone along
the list. -/
lemma addCumulative_cum_mono (cf : Int → Cell) :
    ∀ (l : List YearRow0) (acc : ℚ),
      (∀ q ∈ l, ∀ v, q.avg_excess_savings = some v → 0 ≤ v) →
      ∀ (i j : ℕ) (a b : ℚ), i ≤ j →
        ((addCumulative acc cf l)[i]?).bind (fun r => r.cumulative_excess) = some a →
        ((addCumulative acc cf l)[j]?).bind (fun r => r.cumulative_excess) = some b →
        a ≤ b := by
  intro l
  induction l with
  | nil => intro acc _ i j a b _ ha _; simp [addCumulative] at ha
  | cons r0 t ih =>
    intro acc hnn i j a b hij ha hb
    have htail : ∀ q ∈ t, ∀ v, q.avg_excess_savings = some v → 0 ≤ v :=
      fun q hq => hnn q (List.mem_cons_of_mem _ hq)
    cases h : r0.avg_excess_savings with
    | none =>
      simp only [addCumulative, h] at ha hb
      cases i with
      | zero =>
        rw [List.getElem?_cons_zero] at ha
        have ha2 : (none : Cell) = some a := ha
        cases ha2
      | succ i1 =>
        cases j with
        | zero => omega
        | succ j1 =>
          rw [List.getElem?_cons_succ] at ha hb
          exact ih acc htail i1 j1 a b (by omega) ha hb
    | some v =>
      simp only [addCumulative, h] at ha hb
      cases i with
      | zero =>
        rw [List.getElem?_cons_zero] at ha
        have ha2 : some (acc + v) = some a := ha
        have ha3 : acc + v = a := Option.some_inj.mp ha2
        cases j with
        | zero =>
          rw [List.getElem?_cons_zero] at hb
          have hb2 : some (acc + v) = some b := hb
          have hb3 : acc + v = b := Option.some_inj.mp hb2
          linarith
        | succ j1 =>
          rw [List.getElem?_cons_succ] at hb
          cases hrb : (addCumulative (acc + v) cf t)[j1]? with
          | none => rw [hrb] at hb; cases hb
          | some rb =>
            rw [hrb] at hb
            have := addCumulative_cum_ge_acc cf t (acc + v) htail j1 rb b hrb hb
            linarith
      | succ i1 =>
        cases j with
        | zero => omega
        | succ j1 =>
          rw [List.getElem?_cons_succ] at ha hb
          exact ih (acc + v) htail i1 j1 a b (by omega) ha hb

/-- The counterfactual column of every produced row is the trend function
evaluated at that row's year. -/
lemma addCumulative_counterfactual (cf : Int → Cell) :
    ∀ (l : List YearRow0) (acc : ℚ) (r : YearRow),
      r ∈ addCumulative acc cf l → r.counterfactual_savings = cf r.survey_year := by
  intro l
  induction l with
  | nil => intro acc r hr; simp [addCumulative] at hr
  | cons r0 t ih =>
    intro acc r hr
    cases h : r0.avg_excess_savings with
    | none =>
      simp only [addCumulative, h] at hr
      rcases List.mem_cons.mp hr with hr | hr
      · subst hr; rfl
      · exact ih acc r hr
    | some v =>
      simp only [addCumulative, h] at hr
      rcases List.mem_cons.mp hr with hr | hr
      · subst hr; rfl
      · exact ih (acc + v) r hr

/-- C5 (amended): the cumulative excess column of the yearly aggregate is
the running sum of the mean excesses in ascending year order, in which a
year with null mean excess contributes zero to the running total; at such a
year, however, the cumulative value is itself null (it is non-null exactly
at the years whose own mean excess is non-null). -/
theorem C5_cumulative_running_sum (panel : List Obs4) (i : ℕ) (r : YearRow)
    (hr : (create_time_series panel)[i]? = some r) :
    r.cumulative_excess = r.avg_excess_savings.map (fun _ =>
      (((yearlyBase panel).take (i + 1)).filterMap
        (fun q => q.avg_excess_savings)).sum) := by
  simp only [create_time_series] at hr
  rw [addCumulative_cum_eq (counterfactualFn (yearlyBase panel)) (yearlyBase panel) 0 i r hr]
  cases r.avg_excess_savings <;> simp

/-- C7: the yearly aggregate is sorted ascending by year, and whenever every
present per-year mean excess is non-negative, the cumulative excess value at
each position dominates the cumulative excess value at every earlier
position (null positions have no cumulative value and are skipped). -/
theorem C7_cumulative_monotone (panel : List Obs4)
    (hnn : ∀ r ∈ create_time_series panel, ∀ v, r.avg_excess_savings = some v → 0 ≤ v) :
    List.Sorted (· ≤ ·) ((create_time_series panel).map (fun r => r.survey_year)) ∧
    ∀ (i j : ℕ) (a b : ℚ), i ≤ j →
      ((create_time_series panel)[i]?).bind (fun r : YearRow => r.cumulative_excess) = some a →
      ((create_time_series panel)[j]?).bind (fun r : YearRow => r.cumulative_excess) = some b →
      a ≤ b := by
  have hmap : (create_time_series panel).map (fun r => r.toYearRow0) = yearlyBase panel := by
    simp only [create_time_series]
    exact addCumulative_map_toYearRow0 _ _ 0
  have hnn0 : ∀ q ∈ yearlyBase panel, ∀ v, q.avg_excess_savings = some v → 0 ≤ v := by
    intro q hq v hv
    rw [← hmap] at hq
    obtain ⟨r, hr, rfl⟩ := List.mem_map.mp hq
    exact hnn r hr v hv
  constructor
  · have hyears : (create_time_series panel).map (fun r => r.survey_year) =
        ((panel.map (fun o => o.survey_year)).dedup).insertionSort (· ≤ ·) := by
      have h1 : (create_time_series panel).map (fun r => r.survey_year) =
          (yearlyBase panel).map (fun q => q.survey_year) := by
        rw [← hmap, List.map_map]
        rfl
      rw [h1, yearlyBase, List.map_map]
      rw [show ((fun q : YearRow0 => q.survey_year) ∘ yearRowOf panel) =
        (fun y : Int => y) from rfl]
      simp
    rw [hyears]
    exact List.sorted_insertionSort _ _
  · intro i j a b hij ha hb
    simp only [create_time_series] at ha hb
    exact addCumulative_cum_mono _ _ 0 hnn0 i j a b hij ha hb

/-- C6 (amended): the counterfactual column of the yearly aggregate is the
single least-squares line of mean savings against year, fitted on the rows
of the 2016-2019 baseline window with non-null mean savings and evaluated
at every year of the series; when fewer than two window rows carry non-null
mean savings the column is entirely null.  (The fit window is the 2016-2019
baseline window, not all pre-pandemic years.) -/
theorem C6_counterfactual_window_fit (panel : List Obs4) (r : YearRow)
    (hr : r ∈ create_time_series panel) :
    (2 ≤ (trendPoints (yearlyBase panel)).length →
      r.counterfactual_savings = some ((polyfit1 (trendPoints (yearlyBase panel))).1 *
        (r.survey_year : ℚ) + (polyfit1 (trendPoints (yearlyBase panel))).2)) ∧
    ((trendPoints (yearlyBase panel)).length < 2 →
      r.counterfactual_savings = none) := by
  simp only [create_time_series] at hr
  have h := addCumulative_counterfactual _ _ _ _ hr
  constructor
  · intro h2
    have h1 : 2 ≤ (preWindow (yearlyBase panel)).length := by
      calc 2 ≤ (trendPoints (yearlyBase panel)).length := h2
        _ ≤ (preWindow (yearlyBase panel)).length := by
            simp only [trendPoints]
            exact List.length_filterMap_le _ _
    rw [h, counterfactualFn, if_pos h1, if_pos h2]
  · intro h2
    have h2n : ¬ 2 ≤ (trendPoints (yearlyBase panel)).length := by omega
    rw [h, counterfactualFn]
    by_cases h1 : 2 ≤ (preWindow (yearlyBase panel)).length
    · rw [if_pos h1, if_neg h2n]
    · rw [if_neg h1]

/-- Unfolding `addCumulative` on the empty aggregate. -/
lemma addCumulative_nil (acc : ℚ) (cf : Int → Cell) : addCumulative acc cf [] = [] := rfl

/-- Unfolding `addCumulative` on a null-mean-excess head row. -/
lemma addCumulative_cons_none (acc : ℚ) (cf : Int → Cell) (r0 : YearRow0) (t : List YearRow0)
    (h : r0.avg_excess_savings = none) :
    addCumulative acc cf (r0 :: t) =
      YearRow.mk r0 (cf r0.survey_year) none :: addCumulative acc cf t := by
  simp only [addCumulative, h]

/-- Unfolding `addCumulative` on a non-null-mean-excess head row. -/
lemma addCumulative_cons_some (acc : ℚ) (cf : Int → Cell) (r0 : YearRow0) (t : List YearRow0)
    (v : ℚ) (h : r0.avg_excess_savings = some v) :
    addCumulative acc cf (r0 :: t) =
      YearRow.mk r0 (cf r0.survey_year) (some (acc + v)) :: addCumulative (acc + v) cf t := by
  simp only [addCumulative, h]

/-- The mean of a one-value column. -/
lemma meanOpt_singleton (x : ℚ) : meanOpt [x] = some x := by
  simp [meanOpt, qmean]

/-- Demo cleaned observation for the time-series claims: year 2016, income
25000 (estimated savings 2000 at the 8% rate). -/
def tsA2 : Obs2 :=
  { household_id := some 1, survey_year := 2016, survey_wave := "2016".toList,
    gross_income := some 25000, pandemic_period := false, post_2020 := false,
    pre_pandemic := true, income_decile := some 1 }

/-- Demo cleaned observation: year 2020 with no reported income. -/
def tsB2 : Obs2 :=
  { household_id := some 2, survey_year := 2020, survey_wave := "2020".toList,
    gross_income := none, pandemic_period := true, post_2020 := true,
    pre_pandemic := false, income_decile := none }

/-- Demo cleaned observation: year 2021, income 25000 (estimated savings
4500 at the 18% rate). -/
def tsC2 : Obs2 :=
  { household_id := some 3, survey_year := 2021, survey_wave := "2021".toList,
    gross_income := some 25000, pandemic_period := true, post_2020 := true,
    pre_pandemic := false, income_decile := some 1 }

/-- The estimated-savings rows of the demo panel. -/
def tsA3 : Obs3 := Obs3.mk tsA2 (some 2000)

/-- Year-2020 row: null estimated savings. -/
def tsB3 : Obs3 := Obs3.mk tsB2 none

/-- Year-2021 row: estimated savings 4500. -/
def tsC3 : Obs3 := Obs3.mk tsC2 (some 4500)

/-- The excess rows of the demo panel (baseline 2000). -/
def tsA4 : Obs4 := Obs4.mk tsA3 (some 0)

/-- Year-2020 row: null excess. -/
def tsB4 : Obs4 := Obs4.mk tsB3 none

/-- Year-2021 row: excess 2500. -/
def tsC4 : Obs4 := Obs4.mk tsC3 (some 2500)

/-- The demo canonical panel, produced by the pipeline's own excess stage. -/
def tsPanel : List Obs4 := calculate_excess_savings [tsA2, tsB2, tsC2]

/-- Evaluation of the excess stage on the demo panel. -/
lemma tsPanel_eq : tsPanel = [tsA4, tsB4, tsC4] := by
  have hA : estimatedSavings tsA2 = some 2000 := by
    rw [show estimatedSavings tsA2 = some ((25000 : ℚ) * (8 / 100)) from rfl]
    norm_num
  have hB : estimatedSavings tsB2 = none := rfl
  have hC : estimatedSavings tsC2 = some 4500 := by
    rw [show estimatedSavings tsC2 = some ((25000 : ℚ) * (18 / 100)) from rfl]
    norm_num
  have hAdd : addEstimatedSavings [tsA2, tsB2, tsC2] = [tsA3, tsB3, tsC3] := by
    simp only [addEstimatedSavings, List.map_cons, List.map_nil, hA, hB, hC]
    rfl
  have hwin : (List.filter (fun o => 2016 ≤ o.survey_year && o.survey_year < 2020)
      [tsA3, tsB3, tsC3]).filterMap (fun o => o.estimated_savings) = [(2000 : ℚ)] := by decide
  have hbase : baselineSavings [tsA3, tsB3, tsC3] = 2000 := by
    simp only [baselineSavings, hwin, List.isEmpty_cons, Bool.false_eq_true, if_false, qmean,
      List.sum_cons, List.sum_nil, List.length_cons, List.length_nil]
    norm_num
  have hxA : excessSavings 2000 tsA3 = some 0 := by
    rw [show excessSavings 2000 tsA3 = some (max 0 ((2000 : ℚ) - 2000)) from rfl]
    norm_num
  have hxB : excessSavings 2000 tsB3 = none := rfl
  have hxC : excessSavings 2000 tsC3 = some 2500 := by
    rw [show excessSavings 2000 tsC3 = some (max 0 ((4500 : ℚ) - 2000)) from rfl]
    norm_num
  rw [tsPanel, calculate_excess_savings]
  rw [hAdd, hbase]
  simp only [List.map_cons, List.map_nil, hxA, hxB, hxC]
  rfl

/-- The 2016 aggregate row of the demo panel. -/
def tsY16 : YearRow0 :=
  { survey_year := 2016, avg_income := some 25000, avg_savings := some 2000,
    avg_excess_savings := some 0, n_households := 1, n_with_income := 1 }

/-- The 2020 aggregate row of the demo panel (all means null). -/
def tsY20 : YearRow0 :=
  { survey_year := 2020, avg_income := none, avg_savings := none,
    avg_excess_savings := none, n_households := 1, n_with_income := 0 }

/-- The 2021 aggregate row of the demo panel. -/
def tsY21 : YearRow0 :=
  { survey_year := 2021, avg_income := some 25000, avg_savings := some 4500,
    avg_excess_savings := some 2500, n_households := 1, n_with_income := 1 }

/-- Evaluation of the grouping stage on the demo panel. -/
lemma tsYearly : yearlyBase tsPanel = [tsY16, tsY20, tsY21] := by
  have hrow16 : yearRowOf [tsA4, tsB4, tsC4] 2016 = tsY16 := by
    have hf : [tsA4, tsB4, tsC4].filter (fun o => o.survey_year == 2016) = [tsA4] := by decide
    simp only [yearRowOf, hf]
    rw [show [tsA4].filterMap (fun o : Obs4 => o.gross_income) = [(25000 : ℚ)] from by decide,
      show [tsA4].filterMap (fun o : Obs4 => o.estimated_savings) = [(2000 : ℚ)] from by decide,
      show [tsA4].filterMap (fun o : Obs4 => o.excess_savings) = [(0 : ℚ)] from by decide,
      meanOpt_singleton, meanOpt_singleton, meanOpt_singleton]
    rfl
  have hrow20 : yearRowOf [tsA4, tsB4, tsC4] 2020 = tsY20 := by
    have hf : [tsA4, tsB4, tsC4].filter (fun o => o.survey_year == 2020) = [tsB4] := by decide
    simp only [yearRowOf, hf]
    rw [show [tsB4].filterMap (fun o : Obs4 => o.gross_income) = ([] : List ℚ) from by decide,
      show [tsB4].filterMap (fun o : Obs4 => o.estimated_savings) = ([] : List ℚ) from by decide,
      show [tsB4].filterMap (fun o : Obs4 => o.excess_savings) = ([] : List ℚ) from by decide]
    rfl
  have hrow21 : yearRowOf [tsA4, tsB4, tsC4] 2021 = tsY21 := by
    have hf : [tsA4, tsB4, tsC4].filter (fun o => o.survey_year == 2021) = [tsC4] := by decide
    simp only [yearRowOf, hf]
    rw [show [tsC4].filterMap (fun o : Obs4 => o.gross_income) = [(25000 : ℚ)] from by decide,
      show [tsC4].filterMap (fun o : Obs4 => o.estimated_savings) = [(4500 : ℚ)] from by decide,
      show [tsC4].filterMap (fun o : Obs4 => o.excess_savings) = [(2500 : ℚ)] from by decide,
      meanOpt_singleton, meanOpt_singleton, meanOpt_singleton]
    rfl
  rw [tsPanel_eq]
  have hyrs : (([tsA4, tsB4, tsC4].map (fun o : Obs4 => o.survey_year)).dedup).insertionSort
      (· ≤ ·) = [2016, 2020, 2021] := by decide
  rw [yearlyBase, hyrs]
  simp only [List.map_cons, List.map_nil]
  rw [hrow16, hrow20, hrow21]

/-- The demo panel's 2016-2019 window has a single aggregate row, so the
trend is not fitted. -/
lemma tsCf : counterfactualFn [tsY16, tsY20, tsY21] = fun _ => none := by
  have hpre : preWindow [tsY16, tsY20, tsY21] = [tsY16] := by decide
  simp [counterfactualFn, hpre]

/-- The finished 2016 row of the demo yearly aggregate. -/
def tsR16 : YearRow := YearRow.mk tsY16 none (some 0)

/-- The finished 2020 row: null mean excess and null cumulative excess. -/
def tsR20 : YearRow := YearRow.mk tsY20 none none

/-- The finished 2021 row. -/
def tsR21 : YearRow := YearRow.mk tsY21 none (some 2500)

/-- Evaluation of the whole yearly aggregation on the demo panel. -/
lemma tsCts : create_time_series tsPanel = [tsR16, tsR20, tsR21] := by
  simp only [create_time_series]
  rw [tsYearly, tsCf]
  rw [addCumulative_cons_some 0 _ tsY16 _ 0 rfl]
  rw [addCumulative_cons_none _ _ tsY20 _ rfl]
  rw [addCumulative_cons_some _ _ tsY21 _ 2500 rfl]
  rw [addCumulative_nil]
  norm_num [tsR16, tsR20, tsR21]

/-- Counterexample to C5 as stated: on this pipeline-produced panel the 2020
aggregate row has null mean excess, and its cumulative excess value is null
as well — not non-null as the claim asserts (polars `cum_sum` keeps the
position null while skipping it in the running total). -/
theorem C5_cumulative_nonnull_counterexample :
    (create_time_series tsPanel)[1]?.map
      (fun r => (r.survey_year, r.avg_excess_savings, r.cumulative_excess)) =
      some (2020, none, none) := by
  rw [tsCts]
  rfl

/-- Witness for the amended C5 on the demo panel: the 2021 cumulative value
equals the running total 0 + 2500 of the non-null mean excesses. -/
theorem C5_cumulative_running_sum_witness :
    (create_time_series tsPanel)[2]? = some tsR21 ∧ tsR21.cumulative_excess = some 2500 := by
  have h2 : (create_time_series tsPanel)[2]? = some tsR21 := by
    rw [tsCts]
    rfl
  refine ⟨h2, ?_⟩
  have h := C5_cumulative_running_sum tsPanel 2 tsR21 h2
  rw [h, tsYearly]
  rw [show ([tsY16, tsY20, tsY21].take 3).filterMap (fun q : YearRow0 => q.avg_excess_savings) =
    [(0 : ℚ), 2500] from by decide]
  rw [show tsR21.avg_excess_savings = some (2500 : ℚ) from rfl, optMapSome]
  norm_num

/-- Witness for C7 on the demo panel: its mean excesses are non-negative and
the cumulative value at the last year dominates the one at the first. -/
theorem C7_cumulative_monotone_witness : (0 : ℚ) ≤ 2500 := by
  have hnn : ∀ r ∈ create_time_series tsPanel, ∀ v, r.avg_excess_savings = some v → 0 ≤ v := by
    intro r hr v hv
    rw [tsCts] at hr
    simp only [List.mem_cons, List.not_mem_nil, or_false] at hr
    rcases hr with rfl | rfl | rfl
    · have hv2 : some (0 : ℚ) = some v := hv
      rw [← Option.some_inj.mp hv2]
    · have hv2 : (none : Cell) = some v := hv
      cases hv2
    · have hv2 : some (2500 : ℚ) = some v := hv
      rw [← Option.some_inj.mp hv2]
      norm_num
  refine (C7_cumulative_monotone tsPanel hnn).2 0 2 0 2500 (by norm_num) ?_ ?_
  · rw [tsCts]
    rfl
  · rw [tsCts]
    rfl

/-- Demo cleaned observation: year 2011, income 1250 (estimated savings 100). -/
def cfP2 : Obs2 :=
  { household_id := some 1, survey_year := 2011, survey_wave := "2011".toList,
    gross_income := some 1250, pandemic_period := false, post_2020 := false,
    pre_pandemic := true, income_decile := some 1 }

/-- Demo cleaned observation: year 2016, income 25000 (estimated savings 2000). -/
def cfQ2 : Obs2 :=
  { household_id := some 2, survey_year := 2016, survey_wave := "2016".toList,
    gross_income := some 25000, pandemic_period := false, post_2020 := false,
    pre_pandemic := true, income_decile := some 2 }

/-- Demo cleaned observation: year 2020, income 10000 (estimated savings 1800). -/
def cfR2 : Obs2 :=
  { household_id := some 3, survey_year := 2020, survey_wave := "2020".toList,
    gross_income := some 10000, pandemic_period := true, post_2020 := true,
    pre_pandemic := false, income_decile := some 1 }

/-- Estimated-savings rows of the counterfactual demo panel. -/
def cfP3 : Obs3 := Obs3.mk cfP2 (some 100)

/-- Year-2016 estimated row. -/
def cfQ3 : Obs3 := Obs3.mk cfQ2 (some 2000)

/-- Year-2020 estimated row. -/
def cfR3 : Obs3 := Obs3.mk cfR2 (some 1800)

/-- Excess rows of the counterfactual demo panel (baseline 2000, so all
excesses clip to 0). -/
def cfP4 : Obs4 := Obs4.mk cfP3 (some 0)

/-- Year-2016 excess row. -/
def cfQ4 : Obs4 := Obs4.mk cfQ3 (some 0)

/-- Year-2020 excess row. -/
def cfR4 : Obs4 := Obs4.mk cfR3 (some 0)

/-- The counterfactual demo panel, produced by the pipeline's excess stage:
two pre-pandemic years (2011, 2016) carry income data, but only one of them
lies in the 2016-2019 fit window. -/
def cfPanel : List Obs4 := calculate_excess_savings [cfP2, cfQ2, cfR2]

/-- Evaluation of the excess stage on the counterfactual demo panel. -/
lemma cfPanel_eq : cfPanel = [cfP4, cfQ4, cfR4] := by
  have hP : estimatedSavings cfP2 = some 100 := by
    rw [show estimatedSavings cfP2 = some ((1250 : ℚ) * (8 / 100)) from rfl]
    norm_num
  have hQ : estimatedSavings cfQ2 = some 2000 := by
    rw [show estimatedSavings cfQ2 = some ((25000 : ℚ) * (8 / 100)) from rfl]
    norm_num
  have hR : estimatedSavings cfR2 = some 1800 := by
    rw [show estimatedSavings cfR2 = some ((10000 : ℚ) * (18 / 100)) from rfl]
    norm_num
  have hAdd : addEstimatedSavings [cfP2, cfQ2, cfR2] = [cfP3, cfQ3, cfR3] := by
    simp only [addEstimatedSavings, List.map_cons, List.map_nil, hP, hQ, hR]
    rfl
  have hwin : (List.filter (fun o => 2016 ≤ o.survey_year && o.survey_year < 2020)
      [cfP3, cfQ3, cfR3]).filterMap (fun o => o.estimated_savings) = [(2000 : ℚ)] := by decide
  have hbase : baselineSavings [cfP3, cfQ3, cfR3] = 2000 := by
    simp only [baselineSavings, hwin, List.isEmpty_cons, Bool.false_eq_true, if_false, qmean,
      List.sum_cons, List.sum_nil, List.length_cons, List.length_nil]
    norm_num
  have hxP : excessSavings 2000 cfP3 = some 0 := by
    rw [show excessSavings 2000 cfP3 = some (max 0 ((100 : ℚ) - 2000)) from rfl]
    norm_num
  have hxQ : excessSavings 2000 cfQ3 = some 0 := by
    rw [show excessSavings 2000 cfQ3 = some (max 0 ((2000 : ℚ) - 2000)) from rfl]
    norm_num
  have hxR : excessSavings 2000 cfR3 = some 0 := by
    rw [show excessSavings 2000 cfR3 = some (max 0 ((1800 : ℚ) - 2000)) from rfl]
    norm_num
  rw [cfPanel, calculate_excess_savings]
  rw [hAdd, hbase]
  simp only [List.map_cons, List.map_nil, hxP, hxQ, hxR]
  rfl

/-- The 2011 aggregate row of the counterfactual demo panel. -/
def cfY11 : YearRow0 :=
  { survey_year := 2011, avg_income := some 1250, avg_savings := some 100,
    avg_excess_savings := some 0, n_households := 1, n_with_income := 1 }

/-- The 2016 aggregate row. -/
def cfY16 : YearRow0 :=
  { survey_year := 2016, avg_income := some 25000, avg_savings := some 2000,
    avg_excess_savings := some 0, n_households := 1, n_with_income := 1 }

/-- The 2020 aggregate row. -/
def cfY20 : YearRow0 :=
  { survey_year := 2020, avg_income := some 10000, avg_savings := some 1800,
    avg_excess_savings := some 0, n_households := 1, n_with_income := 1 }

/-- Evaluation of the grouping stage on the counterfactual demo panel. -/
lemma cfYearly : yearlyBase cfPanel = [cfY11, cfY16, cfY20] := by
  have hrow11 : yearRowOf [cfP4, cfQ4, cfR4] 2011 = cfY11 := by
    have hf : [cfP4, cfQ4, cfR4].filter (fun o => o.survey_year == 2011) = [cfP4] := by decide
    simp only [yearRowOf, hf]
    rw [show [cfP4].filterMap (fun o : Obs4 => o.gross_income) = [(1250 : ℚ)] from by decide,
      show [cfP4].filterMap (fun o : Obs4 => o.estimated_savings) = [(100 : ℚ)] from by decide,
      show [cfP4].filterMap (fun o : Obs4 => o.excess_savings) = [(0 : ℚ)] from by decide,
      meanOpt_singleton, meanOpt_singleton, meanOpt_singleton]
    rfl
  have hrow16 : yearRowOf [cfP4, cfQ4, cfR4] 2016 = cfY16 := by
    have hf : [cfP4, cfQ4, cfR4].filter (fun o => o.survey_year == 2016) = [cfQ4] := by decide
    simp only [yearRowOf, hf]
    rw [show [cfQ4].filterMap (fun o : Obs4 => o.gross_income) = [(25000 : ℚ)] from by decide,
      show [cfQ4].filterMap (fun o : Obs4 => o.estimated_savings) = [(2000 : ℚ)] from by decide,
      show [cfQ4].filterMap (fun o : Obs4 => o.excess_savings) = [(0 : ℚ)] from by decide,
      meanOpt_singleton, meanOpt_singleton, meanOpt_singleton]
    rfl
  have hrow20 : yearRowOf [cfP4, cfQ4, cfR4] 2020 = cfY20 := by
    have hf : [cfP4, cfQ4, cfR4].filter (fun o => o.survey_year == 2020) = [cfR4] := by decide
    simp only [yearRowOf, hf]
    rw [show [cfR4].filterMap (fun o : Obs4 => o.gross_income) = [(10000 : ℚ)] from by decide,
      show [cfR4].filterMap (fun o : Obs4 => o.estimated_savings) = [(1800 : ℚ)] from by decide,
      show [cfR4].filterMap (fun o : Obs4 => o.excess_savings) = [(0 : ℚ)] from by decide,
      meanOpt_singleton, meanOpt_singleton, meanOpt_singleton]
    rfl
  rw [cfPanel_eq]
  have hyrs : (([cfP4, cfQ4, cfR4].map (fun o : Obs4 => o.survey_year)).dedup).insertionSort
      (· ≤ ·) = [2011, 2016, 2020] := by decide
  rw [yearlyBase, hyrs]
  simp only [List.map_cons, List.map_nil]
  rw [hrow11, hrow16, hrow20]

/-- Only one aggregate row lies in the 2016-2019 window, so no trend is
fitted for the counterfactual demo panel. -/
lemma cfCf : counterfactualFn [cfY11, cfY16, cfY20] = fun _ => none := by
  have hpre : preWindow [cfY11, cfY16, cfY20] = [cfY16] := by decide
  simp [counterfactualFn, hpre]

/-- Evaluation of the whole yearly aggregation on the counterfactual demo
panel. -/
lemma cfCts : create_time_series cfPanel =
    [YearRow.mk cfY11 none (some 0), YearRow.mk cfY16 none (some 0),
     YearRow.mk cfY20 none (some 0)] := by
  simp only [create_time_series]
  rw [cfYearly, cfCf]
  rw [addCumulative_cons_some 0 _ cfY11 _ 0 rfl]
  rw [addCumulative_cons_some _ _ cfY16 _ 0 rfl]
  rw [addCumulative_cons_some _ _ cfY20 _ 0 rfl]
  rw [addCumulative_nil]
  norm_num

/-- Counterexample to C6 as stated: in this pipeline-produced yearly
aggregate two pre-pandemic years (2011 and 2016) carry non-null mean
savings, yet the counterfactual column is entirely null — the code fits
only on the 2016-2019 window, which here holds a single row. -/
theorem C6_prepandemic_fit_counterexample :
    ((yearlyBase cfPanel).filter
      (fun q => q.survey_year < 2020 && q.avg_savings.isSome)).length = 2 ∧
    (create_time_series cfPanel).map (fun r => r.counterfactual_savings) =
      [none, none, none] := by
  constructor
  · rw [cfYearly]
    decide
  · rw [cfCts]
    rfl

/-- Witness for the amended C6 on the demo panel: its fit window carries a
single usable row, so the counterfactual value of the 2016 aggregate row is
null. -/
theorem C6_counterfactual_window_fit_witness :
    tsR16 ∈ create_time_series tsPanel ∧ tsR16.counterfactual_savings = none := by
  have hmem : tsR16 ∈ create_time_series tsPanel := by
    rw [tsCts]
    exact List.mem_cons_self _ _
  have hlen1 : (trendPoints [tsY16, tsY20, tsY21]).length = 1 := by decide
  have hlen : (trendPoints (yearlyBase tsPanel)).length < 2 := by
    rw [tsYearly]
    omega
  exact ⟨hmem, (C6_counterfactual_window_fit tsPanel tsR16 hmem).2 hlen⟩

/-- Source lines 186-209: the national scaling report.  `none` models the
explicit "not enough data" branch.  Otherwise the result carries the sample
mean excess per household over the `survey_year ≥ 2020` observations with
non-null excess (`total_excess_sample / n_sample`), the national total
estimate (that mean times the fixed 28 000 000 household count), and the
scaling factor: the fixed £200bn benchmark divided by the estimate when the
estimate is positive, and 1.0 otherwise (`if total_excess_uk > 0 else 1.0`). -/
def nationalScaler (panel : List Obs4) : Option (ℚ × ℚ × ℚ) :=
  let vals := (panel.filter (fun o => 2020 ≤ o.survey_year)).filterMap
    (fun o => o.excess_savings)
  if vals.isEmpty then none
  else
    let avg := qmean vals
    let total := avg * 28000000
    some (avg, total, if 0 < total then 200000000000 / total else 1)

/-- C9 (amended): over the year ≥ 2020 observations with non-null excess,
the scaler reports the sample mean excess per household, the national total
estimate (mean times the fixed household count), and a scaling factor that
equals the fixed benchmark divided by the estimate when the estimate is
positive and defaults to 1.0 when the estimate is not positive; an empty
restricted sample yields the explicit insufficient-data result and no
division is performed. -/
theorem C9_national_scaler_report (panel : List Obs4) :
    ((panel.filter (fun o => 2020 ≤ o.survey_year)).filterMap
        (fun o => o.excess_savings) = [] → nationalScaler panel = none) ∧
    ((panel.filter (fun o => 2020 ≤ o.survey_year)).filterMap
        (fun o => o.excess_savings) ≠ [] →
      ∃ m T f, nationalScaler panel = some (m, T, f) ∧
        m = qmean ((panel.filter (fun o => 2020 ≤ o.survey_year)).filterMap
          (fun o => o.excess_savings)) ∧
        T = m * 28000000 ∧
        (0 < T → f = 200000000000 / T) ∧
        (¬ 0 < T → f = 1)) := by
  constructor
  · intro he
    rw [nationalScaler, he]
    rfl
  · intro hne
    rw [nationalScaler, if_neg (by simpa [List.isEmpty_iff] using hne)]
    refine ⟨_, _, _, rfl, rfl, rfl, fun hpos => ?_, fun hneg => ?_⟩
    · rw [if_pos hpos]
    · rw [if_neg hneg]

/-- Counterexample to C9 as stated: a non-empty restricted sample whose
excesses are all zero yields a zero national estimate, and the code reports
scaling factor 1.0 rather than the benchmark divided by the (zero)
estimate — that quotient is not a number (in the rational model it is the
convention value 0, not 1). -/
theorem C9_zero_estimate_counterexample :
    nationalScaler [cfR4] = some (0, 0, 1) ∧ (200000000000 : ℚ) / 0 ≠ 1 := by
  constructor
  · have hvals : ([cfR4].filter (fun o => 2020 ≤ o.survey_year)).filterMap
        (fun o => o.excess_savings) = [(0 : ℚ)] := by decide
    rw [nationalScaler, hvals]
    simp only [List.isEmpty_cons, Bool.false_eq_true, if_false, qmean, List.sum_cons,
      List.sum_nil, List.length_cons, List.length_nil]
    norm_num
  · norm_num

/-- Demo cleaned observation: year 2020, income 50000/3 (estimated savings
3000 at the 18% rate, excess 1000 over the baseline 2000). -/
def scB2 : Obs2 :=
  { household_id := some 4, survey_year := 2020, survey_wave := "2020".toList,
    gross_income := some (50000 / 3), pandemic_period := true, post_2020 := true,
    pre_pandemic := false, income_decile := some 1 }

/-- Estimated row of the scaler demo observation. -/
def scB3 : Obs3 := Obs3.mk scB2 (some 3000)

/-- Excess row of the scaler demo observation. -/
def scB4 : Obs4 := Obs4.mk scB3 (some 1000)

/-- The scaler demo panel: a 2016 baseline row and one pandemic row with
excess 1000, produced by the pipeline's excess stage. -/
def scPanel : List Obs4 := calculate_excess_savings [tsA2, scB2]

/-- Evaluation of the excess stage on the scaler demo panel. -/
lemma scPanel_eq : scPanel = [tsA4, scB4] := by
  have hA : estimatedSavings tsA2 = some 2000 := by
    rw [show estimatedSavings tsA2 = some ((25000 : ℚ) * (8 / 100)) from rfl]
    norm_num
  have hB : estimatedSavings scB2 = some 3000 := by
    rw [show estimatedSavings scB2 = some ((50000 / 3 : ℚ) * (18 / 100)) from rfl]
    norm_num
  have hAdd : addEstimatedSavings [tsA2, scB2] = [tsA3, scB3] := by
    simp only [addEstimatedSavings, List.map_cons, List.map_nil, hA, hB]
    rfl
  have hwin : (List.filter (fun o => 2016 ≤ o.survey_year && o.survey_year < 2020)
      [tsA3, scB3]).filterMap (fun o => o.estimated_savings) = [(2000 : ℚ)] := by decide
  have hbase : baselineSavings [tsA3, scB3] = 2000 := by
    simp only [baselineSavings, hwin, List.isEmpty_cons, Bool.false_eq_true, if_false, qmean,
      List.sum_cons, List.sum_nil, List.length_cons, List.length_nil]
    norm_num
  have hxA : excessSavings 2000 tsA3 = some 0 := by
    rw [show excessSavings 2000 tsA3 = some (max 0 ((2000 : ℚ) - 2000)) from rfl]
    norm_num
  have hxB : excessSavings 2000 scB3 = some 1000 := by
    rw [show excessSavings 2000 scB3 = some (max 0 ((3000 : ℚ) - 2000)) from rfl]
    norm_num
  rw [scPanel, calculate_excess_savings]
  rw [hAdd, hbase]
  simp only [List.map_cons, List.map_nil, hxA, hxB]
  rfl

/-- Witness for the amended C9, matching the specification's scenario: a
sample mean excess of £1000 per household scales to a £28bn national
estimate and a scaling factor of 200bn / 28bn = 50/7 (≈ 7.14). -/
theorem C9_national_scaler_report_witness :
    nationalScaler scPanel = some (1000, 28000000000, 50 / 7) := by
  have hvals : (scPanel.filter (fun o => 2020 ≤ o.survey_year)).filterMap
      (fun o => o.excess_savings) = [(1000 : ℚ)] := by
    rw [scPanel_eq]
    decide
  obtain ⟨m, T, f, hout, hm, hT, hfpos, _⟩ :=
    (C9_national_scaler_report scPanel).2 (by rw [hvals]; exact List.cons_ne_nil _ _)
  have hm2 : m = 1000 := by
    rw [hm, hvals, qmean]
    norm_num
  have hT2 : T = 28000000000 := by
    rw [hT, hm2]
    norm_num
  have hf2 : f = 50 / 7 := by
    rw [hfpos (by rw [hT2]; norm_num), hT2]
    norm_num
  rw [hout, hm2, hT2, hf2]

/-- Indexed reads of a weakly sorted list are monotone. -/
lemma sortedLe_getD_mono :
    ∀ (xs : List ℚ), xs.Sorted (· ≤ ·) → ∀ (i j : ℕ), i ≤ j → j < xs.length →
      xs.getD i 0 ≤ xs.getD j 0 := by
  intro xs
  induction xs with
  | nil => intro _ i j _ hj; simp at hj
  | cons a t ih =>
    intro hs i j hij hj
    rcases List.sorted_cons.mp hs with ⟨ha, ht⟩
    cases i with
    | zero =>
      cases j with
      | zero => exact le_refl _
      | succ j1 =>
        rw [List.getD_cons_zero, List.getD_cons_succ]
        have hj1 : j1 < t.length := by simpa using hj
        have hmem : t.getD j1 0 ∈ t := by
          rw [List.getD_eq_getElem t 0 hj1]
          exact List.getElem_mem hj1
        exact ha _ hmem
    | succ i1 =>
      cases j with
      | zero => omega
      | succ j1 =>
        rw [List.getD_cons_succ, List.getD_cons_succ]
        exact ih ht i1 j1 (by omega) (by simpa using hj)

/-- Indexed reads of a strictly sorted list are strictly monotone. -/
lemma sortedLt_getD_strictMono :
    ∀ (xs : List ℚ), xs.Sorted (· < ·) → ∀ (i j : ℕ), i < j → j < xs.length →
      xs.getD i 0 < xs.getD j 0 := by
  intro xs
  induction xs with
  | nil => intro _ i j _ hj; simp at hj
  | cons a t ih =>
    intro hs i j hij hj
    rcases List.sorted_cons.mp hs with ⟨ha, ht⟩
    cases i with
    | zero =>
      cases j with
      | zero => omega
      | succ j1 =>
        rw [List.getD_cons_zero, List.getD_cons_succ]
        have hj1 : j1 < t.length := by simpa using hj
        have hmem : t.getD j1 0 ∈ t := by
          rw [List.getD_eq_getElem t 0 hj1]
          exact List.getElem_mem hj1
        exact ha _ hmem
    | succ i1 =>
      cases j with
      | zero => omega
      | succ j1 =>
        rw [List.getD_cons_succ, List.getD_cons_succ]
        exact ih ht i1 j1 (by omega) (by simpa using hj)

/-- In a strictly sorted list, the number of elements not exceeding a value
that separates positions `i` and `i + 1` is exactly `i + 1`. -/
lemma countP_le_eq_of_sorted :
    ∀ (xs : List ℚ), xs.Sorted (· < ·) → ∀ (i : ℕ) (q : ℚ), i < xs.length →
      xs.getD i 0 ≤ q → (i + 1 < xs.length → q < xs.getD (i + 1) 0) →
      xs.countP (fun v => v ≤ q) = i + 1 := by
  intro xs
  induction xs with
  | nil => intro _ i q hi; simp at hi
  | cons a t ih =>
    intro hs i q hi h1 h2
    rcases List.sorted_cons.mp hs with ⟨ha, ht⟩
    cases i with
    | zero =>
      rw [List.getD_cons_zero] at h1
      rw [List.countP_cons, if_pos (by simpa using h1)]
      rw [List.countP_eq_zero.mpr]
      intro x hx
      cases t with
      | nil => simp at hx
      | cons b t2 =>
        have hq : q < b := by
          have := h2 (by simp)
          simpa using this
        have hbx : b ≤ x := by
          rcases List.mem_cons.mp hx with rfl | hx2
          · exact le_refl _
          · exact le_of_lt ((List.sorted_cons.mp ht).1 x hx2)
        simp only [decide_eq_true_eq]
        intro hcon
        have : q < x := lt_of_lt_of_le hq hbx
        linarith
    | succ i1 =>
      have hi1 : i1 < t.length := by simpa using hi
      rw [List.getD_cons_succ] at h1
      have haq : a ≤ q := by
        have hmem : t.getD i1 0 ∈ t := by
          rw [List.getD_eq_getElem t 0 hi1]
          exact List.getElem_mem hi1
        exact le_of_lt (lt_of_lt_of_le (ha _ hmem) h1)
      rw [List.countP_cons, if_pos (by simpa using haq)]
      rw [ih ht i1 q hi1 h1 (fun hlt => by
        have := h2 (by simpa using Nat.succ_lt_succ hlt)
        simpa using this)]

/-- The floor of the interpolation position `(n-1)·k/10` is the natural
quotient `(n-1)·k / 10`. -/
lemma floor_quantile_index (n k : ℕ) (hn : 1 ≤ n) :
    ⌊((n : ℚ) - 1) * k / 10⌋ = ((n - 1) * k / 10 : ℕ) := by
  have h1 : ((n : ℚ) - 1) = ((n - 1 : ℕ) : ℚ) := (Nat.cast_sub hn).symm
  rw [h1]
  have h2 : (((n - 1 : ℕ) : ℚ)) * (k : ℚ) / 10 =
      ((((n - 1) * k : ℕ) : ℤ) : ℚ) / ((10 : ℕ) : ℚ) := by
    push_cast
    ring
  rw [h2, Rat.floor_intCast_div_natCast]
  norm_cast

/-- The linear interpolation between positions `i` and `i+1` of a weakly
sorted list does not fall below the value at position `i`. -/
lemma interp_ge_lo (xs : List ℚ) (hs : xs.Sorted (· ≤ ·)) (h : ℚ) (i : ℕ)
    (hin : i < xs.length) (hge : (i : ℚ) ≤ h) :
    xs.getD i 0 ≤ xs.getD i 0 + (h - i) * (xs.getD (i + 1) (xs.getD i 0) - xs.getD i 0) := by
  by_cases hi1 : i + 1 < xs.length
  · have hgd : xs.getD (i + 1) (xs.getD i 0) = xs.getD (i + 1) 0 := by
      rw [List.getD_eq_getElem xs _ hi1, List.getD_eq_getElem xs _ hi1]
    rw [hgd]
    have hgap : xs.getD i 0 ≤ xs.getD (i + 1) 0 :=
      sortedLe_getD_mono xs hs i (i + 1) (by omega) hi1
    nlinarith
  · rw [@List.getD_eq_default ℚ xs (xs.getD i 0) (i + 1) (by omega)]
    simp

/-- The linear interpolation between positions `i` and `i+1` of a weakly
sorted list does not exceed the value at position `i+1`. -/
lemma interp_le_hi (xs : List ℚ) (hs : xs.Sorted (· ≤ ·)) (h : ℚ) (i : ℕ)
    (hi1 : i + 1 < xs.length) (hlt : h < (i : ℚ) + 1) :
    xs.getD i 0 + (h - i) * (xs.getD (i + 1) (xs.getD i 0) - xs.getD i 0) ≤
      xs.getD (i + 1) 0 := by
  have hgd : xs.getD (i + 1) (xs.getD i 0) = xs.getD (i + 1) 0 := by
    rw [List.getD_eq_getElem xs _ hi1, List.getD_eq_getElem xs _ hi1]
  rw [hgd]
  have hgap : 0 ≤ xs.getD (i + 1) 0 - xs.getD i 0 := by
    have := sortedLe_getD_mono xs hs i (i + 1) (by omega) hi1
    linarith
  have hm : (h - i) * (xs.getD (i + 1) 0 - xs.getD i 0) ≤
      xs.getD (i + 1) 0 - xs.getD i 0 :=
    mul_le_of_le_one_left hgap (by linarith)
  linarith

/-- Strict version of `interp_le_hi` for strictly sorted lists. -/
lemma interp_lt_hi (xs : List ℚ) (hs : xs.Sorted (· < ·)) (h : ℚ) (i : ℕ)
    (hi1 : i + 1 < xs.length) (hlt : h < (i : ℚ) + 1) :
    xs.getD i 0 + (h - i) * (xs.getD (i + 1) (xs.getD i 0) - xs.getD i 0) <
      xs.getD (i + 1) 0 := by
  have hgd : xs.getD (i + 1) (xs.getD i 0) = xs.getD (i + 1) 0 := by
    rw [List.getD_eq_getElem xs _ hi1, List.getD_eq_getElem xs _ hi1]
  rw [hgd]
  have hgap : 0 < xs.getD (i + 1) 0 - xs.getD i 0 := by
    have := sortedLt_getD_strictMono xs hs i (i + 1) (by omega) hi1
    linarith
  have hm : (h - i) * (xs.getD (i + 1) 0 - xs.getD i 0) <
      1 * (xs.getD (i + 1) 0 - xs.getD i 0) := by
    apply mul_lt_mul_of_pos_right _ hgap
    linarith
  linarith

/-- The interpolation index of the `k/10` quantile is in range, and the
quantile value separates positions `i` and `i+1` of the strictly sorted
value list. -/
lemma quantile_position (xs : List ℚ) (hs : xs.Sorted (· < ·)) (hn : 1 ≤ xs.length)
    (k : ℕ) (hk9 : k ≤ 9) :
    (xs.length - 1) * k / 10 < xs.length ∧
    xs.getD ((xs.length - 1) * k / 10) 0 ≤ quantileLinear xs k ∧
    ((xs.length - 1) * k / 10 + 1 < xs.length →
      quantileLinear xs k < xs.getD ((xs.length - 1) * k / 10 + 1) 0) := by
  have hin : (xs.length - 1) * k / 10 < xs.length := by
    have h1 : (xs.length - 1) * k / 10 ≤ (xs.length - 1) * 9 / 10 :=
      Nat.div_le_div_right (Nat.mul_le_mul_left _ hk9)
    have h2 : (xs.length - 1) * 9 / 10 ≤ (xs.length - 1) * 9 / 9 :=
      Nat.div_le_div_left (by norm_num) (by norm_num)
    have h3 : (xs.length - 1) * 9 / 9 = xs.length - 1 := Nat.mul_div_cancel _ (by norm_num)
    omega
  have hfl : ⌊((xs.length : ℚ) - 1) * k / 10⌋ = (((xs.length - 1) * k / 10 : ℕ) : ℤ) :=
    floor_quantile_index xs.length k hn
  have htn : (⌊((xs.length : ℚ) - 1) * k / 10⌋).toNat = (xs.length - 1) * k / 10 := by
    rw [hfl]
    exact Int.toNat_natCast _
  have hge : (((xs.length - 1) * k / 10 : ℕ) : ℚ) ≤ ((xs.length : ℚ) - 1) * k / 10 := by
    have := Int.floor_le (((xs.length : ℚ) - 1) * k / 10)
    rw [hfl] at this
    exact_mod_cast this
  have hlt1 : ((xs.length : ℚ) - 1) * k / 10 < (((xs.length - 1) * k / 10 : ℕ) : ℚ) + 1 := by
    have := Int.lt_floor_add_one (((xs.length : ℚ) - 1) * k / 10)
    rw [hfl] at this
    exact_mod_cast this
  refine ⟨hin, ?_, ?_⟩
  · simp only [quantileLinear, htn]
    exact interp_ge_lo xs (hs.imp (fun h => le_of_lt h)) _ _ hin hge
  · intro hi1
    simp only [quantileLinear, htn]
    exact interp_lt_hi xs hs _ _ hi1 hlt1

/-- The `k/10` quantile of a weakly sorted non-empty list is monotone in `k`
(for the probabilities the decile boundaries use). -/
lemma quantileLinear_mono (xs : List ℚ) (hs : xs.Sorted (· ≤ ·)) (hn : 1 ≤ xs.length)
    (j k : ℕ) (hjk : j ≤ k) (hk9 : k ≤ 9) :
    quantileLinear xs j ≤ quantileLinear xs k := by
  have hinj : (xs.length - 1) * j / 10 < xs.length := by
    have h1 : (xs.length - 1) * j / 10 ≤ (xs.length - 1) * 9 / 10 :=
      Nat.div_le_div_right (Nat.mul_le_mul_left _ (by omega))
    have h2 : (xs.length - 1) * 9 / 10 ≤ (xs.length - 1) * 9 / 9 :=
      Nat.div_le_div_left (by norm_num) (by norm_num)
    have h3 : (xs.length - 1) * 9 / 9 = xs.length - 1 := Nat.mul_div_cancel _ (by norm_num)
    omega
  have hink : (xs.length - 1) * k / 10 < xs.length := by
    have h1 : (xs.length - 1) * k / 10 ≤ (xs.length - 1) * 9 / 10 :=
      Nat.div_le_div_right (Nat.mul_le_mul_left _ hk9)
    have h2 : (xs.length - 1) * 9 / 10 ≤ (xs.length - 1) * 9 / 9 :=
      Nat.div_le_div_left (by norm_num) (by norm_num)
    have h3 : (xs.length - 1) * 9 / 9 = xs.length - 1 := Nat.mul_div_cancel _ (by norm_num)
    omega
  have hflj : ⌊((xs.length : ℚ) - 1) * j / 10⌋ = (((xs.length - 1) * j / 10 : ℕ) : ℤ) :=
    floor_quantile_index xs.length j hn
  have hflk : ⌊((xs.length : ℚ) - 1) * k / 10⌋ = (((xs.length - 1) * k / 10 : ℕ) : ℤ) :=
    floor_quantile_index xs.length k hn
  have htnj : (⌊((xs.length : ℚ) - 1) * j / 10⌋).toNat = (xs.length - 1) * j / 10 := by
    rw [hflj]
    exact Int.toNat_natCast _
  have htnk : (⌊((xs.length : ℚ) - 1) * k / 10⌋).toNat = (xs.length - 1) * k / 10 := by
    rw [hflk]
    exact Int.toNat_natCast _
  have hgej : (((xs.length - 1) * j / 10 : ℕ) : ℚ) ≤ ((xs.length : ℚ) - 1) * j / 10 := by
    have := Int.floor_le (((xs.length : ℚ) - 1) * j / 10)
    rw [hflj] at this
    exact_mod_cast this
  have hltj : ((xs.length : ℚ) - 1) * j / 10 < (((xs.length - 1) * j / 10 : ℕ) : ℚ) + 1 := by
    have := Int.lt_floor_add_one (((xs.length : ℚ) - 1) * j / 10)
    rw [hflj] at this
    exact_mod_cast this
  have hgek : (((xs.length - 1) * k / 10 : ℕ) : ℚ) ≤ ((xs.length : ℚ) - 1) * k / 10 := by
    have := Int.floor_le (((xs.length : ℚ) - 1) * k / 10)
    rw [hflk] at this
    exact_mod_cast this
  have hh : ((xs.length : ℚ) - 1) * j / 10 ≤ ((xs.length : ℚ) - 1) * k / 10 := by
    have hnn : (0 : ℚ) ≤ (xs.length : ℚ) - 1 := by
      have : (1 : ℚ) ≤ (xs.length : ℚ) := by exact_mod_cast hn
      linarith
    have hjk2 : (j : ℚ) ≤ (k : ℚ) := by exact_mod_cast hjk
    have := mul_le_mul_of_nonneg_left hjk2 hnn
    linarith
  have hidx : (xs.length - 1) * j / 10 ≤ (xs.length - 1) * k / 10 :=
    Nat.div_le_div_right (Nat.mul_le_mul_left _ hjk)
  rcases Nat.lt_or_ge ((xs.length - 1) * j / 10) ((xs.length - 1) * k / 10) with hcase | hcase
  · -- strictly smaller interpolation cell: go through the cell boundary
    have hj1 : (xs.length - 1) * j / 10 + 1 < xs.length + 1 := by omega
    have hstep1 : quantileLinear xs j ≤ xs.getD ((xs.length - 1) * j / 10 + 1) 0 := by
      by_cases hi1 : (xs.length - 1) * j / 10 + 1 < xs.length
      · simp only [quantileLinear, htnj]
        exact interp_le_hi xs hs _ _ hi1 hltj
      · omega
    have hstep2 : xs.getD ((xs.length - 1) * j / 10 + 1) 0 ≤
        xs.getD ((xs.length - 1) * k / 10) 0 :=
      sortedLe_getD_mono xs hs _ _ (by omega) hink
    have hstep3 : xs.getD ((xs.length - 1) * k / 10) 0 ≤ quantileLinear xs k := by
      simp only [quantileLinear, htnk]
      exact interp_ge_lo xs hs _ _ hink hgek
    linarith
  · -- same interpolation cell: the interpolation is monotone in the position
    have heq : (xs.length - 1) * j / 10 = (xs.length - 1) * k / 10 := by omega
    simp only [quantileLinear, htnj, htnk, heq]
    have hgap : 0 ≤ xs.getD ((xs.length - 1) * k / 10 + 1)
        (xs.getD ((xs.length - 1) * k / 10) 0) - xs.getD ((xs.length - 1) * k / 10) 0 := by
      by_cases hi1 : (xs.length - 1) * k / 10 + 1 < xs.length
      · have hgd : xs.getD ((xs.length - 1) * k / 10 + 1)
            (xs.getD ((xs.length - 1) * k / 10) 0) =
            xs.getD ((xs.length - 1) * k / 10 + 1) 0 := by
          rw [List.getD_eq_getElem xs _ hi1, List.getD_eq_getElem xs _ hi1]
        rw [hgd]
        have := sortedLe_getD_mono xs hs ((xs.length - 1) * k / 10)
          ((xs.length - 1) * k / 10 + 1) (by omega) hi1
        linarith
      · rw [@List.getD_eq_default ℚ xs (xs.getD ((xs.length - 1) * k / 10) 0)
          ((xs.length - 1) * k / 10 + 1) (by omega)]
        simp
    have hh2 : ((xs.length : ℚ) - 1) * j / 10 - ((xs.length - 1) * k / 10 : ℕ) ≤
        ((xs.length : ℚ) - 1) * k / 10 - ((xs.length - 1) * k / 10 : ℕ) := by linarith
    nlinarith [mul_le_mul_of_nonneg_right hh2 hgap]

/-- In a weakly sorted boundary list, at most `m` boundaries lie strictly
below `v` exactly when `v` does not exceed the boundary at position `m`. -/
lemma countP_lt_sorted_le_iff :
    ∀ (bs : List ℚ), bs.Sorted (· ≤ ·) → ∀ (m : ℕ) (v : ℚ), m < bs.length →
      (bs.countP (fun b => b < v) ≤ m ↔ v ≤ bs.getD m 0) := by
  intro bs
  induction bs with
  | nil => intro _ m v hm; simp at hm
  | cons b t ih =>
    intro hs m v hm
    rcases List.sorted_cons.mp hs with ⟨hb, ht⟩
    cases m with
    | zero =>
      rw [List.getD_cons_zero]
      constructor
      · intro hc
        by_contra hv
        push_neg at hv
        have hpos : 0 < (b :: t).countP (fun x => x < v) := by
          rw [List.countP_cons, if_pos (by simpa using hv)]
          omega
        omega
      · intro hv
        rw [List.countP_cons, if_neg (by simpa using not_lt.mpr hv)]
        rw [List.countP_eq_zero.mpr]
        intro x hx
        simp only [decide_eq_true_eq]
        have hbx : b ≤ x := hb x hx
        intro hcon
        linarith
    | succ m1 =>
      have hm1 : m1 < t.length := by simpa using hm
      rw [List.getD_cons_succ]
      by_cases hbv : b < v
      · rw [List.countP_cons, if_pos (by simpa using hbv)]
        rw [← ih ht m1 v hm1]
        omega
      · rw [List.countP_cons, if_neg (by simpa using hbv)]
        push_neg at hbv
        constructor
        · intro _
          have hmem : t.getD m1 0 ∈ t := by
            rw [List.getD_eq_getElem t 0 hm1]
            exact List.getElem_mem hm1
          exact le_trans hbv (hb _ hmem)
        · intro _
          have h0 : t.countP (fun x => x < v) = 0 := by
            rw [List.countP_eq_zero]
            intro x hx
            simp only [decide_eq_true_eq]
            have hbx : b ≤ x := hb x hx
            intro hcon
            linarith
          omega

/-- Splitting a bin-membership count at a bin index. -/
lemma countP_qcut_split (vs bs : List ℚ) (k : ℕ) (hk : 1 ≤ k) :
    vs.countP (fun v => qcutBin bs v ≤ k) =
      vs.countP (fun v => qcutBin bs v ≤ k - 1) +
        vs.countP (fun v => qcutBin bs v = k) := by
  induction vs with
  | nil => rfl
  | cons a t ih =>
    simp only [List.countP_cons, ih]
    by_cases h1 : qcutBin bs a ≤ k - 1 <;> by_cases h2 : qcutBin bs a = k
    · exact absurd h2 (by omega)
    · have h3 : qcutBin bs a ≤ k := by omega
      rw [if_pos (by simpa using h3), if_pos (by simpa using h1), if_neg (by simpa using h2)]
      omega
    · have h3 : qcutBin bs a ≤ k := by omega
      rw [if_pos (by simpa using h3), if_neg (by simpa using h1), if_pos (by simpa using h2)]
      omega
    · have h3 : ¬ qcutBin bs a ≤ k := by omega
      rw [if_neg (by simpa using h3), if_neg (by simpa using h1), if_neg (by simpa using h2)]
      omega

/-- Every bin index is at least 1. -/
lemma qcutBin_one_le (bs : List ℚ) (v : ℚ) : 1 ≤ qcutBin bs v := by
  simp [qcutBin]

/-- Bin assignment is monotone in the value. -/
lemma qcutBin_mono (bs : List ℚ) {v w : ℚ} (hvw : v ≤ w) : qcutBin bs v ≤ qcutBin bs w := by
  simp only [qcutBin]
  have h : bs.countP (fun b => decide (b < v)) ≤ bs.countP (fun b => decide (b < w)) := by
    apply List.countP_mono_left
    intro x _ hx
    simp only [decide_eq_true_eq] at hx ⊢
    linarith
  omega

/-- There are nine decile boundaries. -/
lemma decileBreaks_length (vs : List ℚ) : (decileBreaks vs).length = 9 := by
  simp [decileBreaks]

/-- With ten labels over nine boundaries, every bin index is at most 10. -/
lemma qcutBin_le_ten (vs : List ℚ) (v : ℚ) : qcutBin (decileBreaks vs) v ≤ 10 := by
  have h := @List.countP_le_length ℚ (fun b => decide (b < v)) (decileBreaks vs)
  rw [decileBreaks_length] at h
  simp only [qcutBin]
  omega

/-- Reading the `m`-th decile boundary. -/
lemma decileBreaks_getD (vs : List ℚ) (m : ℕ) (hm : m < 9) :
    (decileBreaks vs).getD m 0 = quantileLinear (vs.insertionSort (· ≤ ·)) (m + 1) := by
  have hlen : m < ((List.range 9).map
      (fun j => quantileLinear (vs.insertionSort (· ≤ ·)) (j + 1))).length := by
    simpa using hm
  rw [decileBreaks, List.getD_eq_getElem _ _ hlen, List.getElem_map, List.getElem_range]

/-- The decile boundaries are weakly sorted. -/
lemma decileBreaks_sorted (vs : List ℚ) (hn : 1 ≤ vs.length) :
    (decileBreaks vs).Sorted (· ≤ ·) := by
  rw [decileBreaks]
  refine List.pairwise_map.mpr ?_
  refine List.Pairwise.imp_of_mem ?_ (List.pairwise_lt_range 9)
  intro a b ha hb hab
  have hb9 : b < 9 := List.mem_range.mp hb
  exact quantileLinear_mono _ (List.sorted_insertionSort _ _)
    (by rwa [List.length_insertionSort]) (a + 1) (b + 1) (by omega) (by omega)

/-- Cumulative bin population: with distinct values, the first `k` bins
together hold exactly `(n-1)·k/10 + 1` of the `n` values. -/
lemma countP_binle (vs : List ℚ) (hnd : vs.Nodup) (hn : 1 ≤ vs.length) (k : ℕ)
    (hk1 : 1 ≤ k) (hk9 : k ≤ 9) :
    vs.countP (fun v => qcutBin (decileBreaks vs) v ≤ k) =
      (vs.length - 1) * k / 10 + 1 := by
  have hperm : (vs.insertionSort (· ≤ ·)).Perm vs := List.perm_insertionSort _ _
  have hsle : (vs.insertionSort (· ≤ ·)).Sorted (· ≤ ·) := List.sorted_insertionSort _ _
  have hndS : (vs.insertionSort (· ≤ ·)).Nodup := hnd.perm hperm.symm
  have hslt : (vs.insertionSort (· ≤ ·)).Sorted (· < ·) := hsle.lt_of_le hndS
  have hlenS : (vs.insertionSort (· ≤ ·)).length = vs.length := hperm.length_eq
  have hchar : ∀ v : ℚ, (qcutBin (decileBreaks vs) v ≤ k) ↔
      v ≤ quantileLinear (vs.insertionSort (· ≤ ·)) k := by
    intro v
    have hm : k - 1 < (decileBreaks vs).length := by
      rw [decileBreaks_length]
      omega
    have hiff := countP_lt_sorted_le_iff (decileBreaks vs) (decileBreaks_sorted vs hn)
      (k - 1) v hm
    rw [decileBreaks_getD vs (k - 1) (by omega), show k - 1 + 1 = k from by omega] at hiff
    rw [qcutBin]
    constructor
    · intro h
      exact hiff.mp (by omega)
    · intro h
      have := hiff.mpr h
      omega
  have hcong : vs.countP (fun v => qcutBin (decileBreaks vs) v ≤ k) =
      vs.countP (fun v => v ≤ quantileLinear (vs.insertionSort (· ≤ ·)) k) := by
    rw [List.countP_eq_length_filter, List.countP_eq_length_filter]
    congr 1
    apply List.filter_congr
    intro v _
    exact decide_eq_decide.mpr (hchar v)
  have hpos := quantile_position (vs.insertionSort (· ≤ ·)) hslt
    (by rwa [List.length_insertionSort]) k hk9
  have hcount := countP_le_eq_of_sorted (vs.insertionSort (· ≤ ·)) hslt
    (((vs.insertionSort (· ≤ ·)).length - 1) * k / 10)
    (quantileLinear (vs.insertionSort (· ≤ ·)) k) hpos.1 hpos.2.1 hpos.2.2
  rw [hcong, ← List.Perm.countP_eq _ hperm, hcount, hlenS]

/-- All values land in the first ten bins. -/
lemma countP_binle_ten (vs : List ℚ) :
    vs.countP (fun v => qcutBin (decileBreaks vs) v ≤ 10) = vs.length := by
  rw [List.countP_eq_length]
  intro v _
  simpa using qcutBin_le_ten vs v

/-- The decile population bounds: with distinct values, every one of the ten
bins holds between `⌊n/10⌋` and `⌈n/10⌉` of the `n` values. -/
lemma qcut_decile_count_bounds (vs : List ℚ) (hnd : vs.Nodup) (k : ℕ)
    (hk1 : 1 ≤ k) (hk10 : k ≤ 10) :
    vs.length / 10 ≤ vs.countP (fun v => qcutBin (decileBreaks vs) v = k) ∧
    vs.countP (fun v => qcutBin (decileBreaks vs) v = k) ≤ (vs.length + 9) / 10 := by
  rcases Nat.eq_zero_or_pos vs.length with h0 | hpos
  · have hnil : vs = [] := List.length_eq_zero.mp h0
    subst hnil
    simp
  have h1 : 1 ≤ vs.length := hpos
  have hle0 : vs.countP (fun v => qcutBin (decileBreaks vs) v ≤ 0) = 0 := by
    rw [List.countP_eq_zero]
    intro v _
    simp only [decide_eq_true_eq]
    have := qcutBin_one_le (decileBreaks vs) v
    omega
  have hdm : 10 * ((vs.length - 1) / 10) + (vs.length - 1) % 10 = vs.length - 1 :=
    Nat.div_add_mod _ 10
  have h10 : (vs.length - 1) % 10 < 10 := Nat.mod_lt _ (by norm_num)
  interval_cases k
  · have hle := countP_binle vs hnd h1 1 (by norm_num) (by norm_num)
    have hsplit := countP_qcut_split vs (decileBreaks vs) 1 (by norm_num)
    rw [show (1 : ℕ) - 1 = 0 from rfl] at hsplit
    interval_cases hmod : ((vs.length - 1) % 10) <;> omega
  · have hle := countP_binle vs hnd h1 2 (by norm_num) (by norm_num)
    have hlt := countP_binle vs hnd h1 1 (by norm_num) (by norm_num)
    have hsplit := countP_qcut_split vs (decileBreaks vs) 2 (by norm_num)
    rw [show (2 : ℕ) - 1 = 1 from rfl] at hsplit
    interval_cases hmod : ((vs.length - 1) % 10) <;> omega
  · have hle := countP_binle vs hnd h1 3 (by norm_num) (by norm_num)
    have hlt := countP_binle vs hnd h1 2 (by norm_num) (by norm_num)
    have hsplit := countP_qcut_split vs (decileBreaks vs) 3 (by norm_num)
    rw [show (3 : ℕ) - 1 = 2 from rfl] at hsplit
    interval_cases hmod : ((vs.length - 1) % 10) <;> omega
  · have hle := countP_binle vs hnd h1 4 (by norm_num) (by norm_num)
    have hlt := countP_binle vs hnd h1 3 (by norm_num) (by norm_num)
    have hsplit := countP_qcut_split vs (decileBreaks vs) 4 (by norm_num)
    rw [show (4 : ℕ) - 1 = 3 from rfl] at hsplit
    interval_cases hmod : ((vs.length - 1) % 10) <;> omega
  · have hle := countP_binle vs hnd h1 5 (by norm_num) (by norm_num)
    have hlt := countP_binle vs hnd h1 4 (by norm_num) (by norm_num)
    have hsplit := countP_qcut_split vs (decileBreaks vs) 5 (by norm_num)
    rw [show (5 : ℕ) - 1 = 4 from rfl] at hsplit
    interval_cases hmod : ((vs.length - 1) % 10) <;> omega
  · have hle := countP_binle vs hnd h1 6 (by norm_num) (by norm_num)
    have hlt := countP_binle vs hnd h1 5 (by norm_num) (by norm_num)
    have hsplit := countP_qcut_split vs (decileBreaks vs) 6 (by norm_num)
    rw [show (6 : ℕ) - 1 = 5 from rfl] at hsplit
    interval_cases hmod : ((vs.length - 1) % 10) <;> omega
  · have hle := countP_binle vs hnd h1 7 (by norm_num) (by norm_num)
    have hlt := countP_binle vs hnd h1 6 (by norm_num) (by norm_num)
    have hsplit := countP_qcut_split vs (decileBreaks vs) 7 (by norm_num)
    rw [show (7 : ℕ) - 1 = 6 from rfl] at hsplit
    interval_cases hmod : ((vs.length - 1) % 10) <;> omega
  · have hle := countP_binle vs hnd h1 8 (by norm_num) (by norm_num)
    have hlt := countP_binle vs hnd h1 7 (by norm_num) (by norm_num)
    have hsplit := countP_qcut_split vs (decileBreaks vs) 8 (by norm_num)
    rw [show (8 : ℕ) - 1 = 7 from rfl] at hsplit
    interval_cases hmod : ((vs.length - 1) % 10) <;> omega
  · have hle := countP_binle vs hnd h1 9 (by norm_num) (by norm_num)
    have hlt := countP_binle vs hnd h1 8 (by norm_num) (by norm_num)
    have hsplit := countP_qcut_split vs (decileBreaks vs) 9 (by norm_num)
    rw [show (9 : ℕ) - 1 = 8 from rfl] at hsplit
    interval_cases hmod : ((vs.length - 1) % 10) <;> omega
  · have h10 := countP_binle_ten vs
    have hlt := countP_binle vs hnd h1 9 (by norm_num) (by norm_num)
    have hsplit := countP_qcut_split vs (decileBreaks vs) 10 (by norm_num)
    rw [show (10 : ℕ) - 1 = 9 from rfl] at hsplit
    interval_cases hmod : ((vs.length - 1) % 10) <;> omega

/-- C8: deciles are assigned once over the full panel's non-null incomes by
quantile binning into ten ordered groups — a null income keeps a null decile
and a present income gets the bin of the nine global quantile boundaries
(bin 1 = lowest, bin 10 = highest, monotone in income, total even with
duplicate boundaries); and with distinct income values each of the ten
deciles holds between `⌊N/10⌋` and `⌈N/10⌉` of the `N` non-null income
rows. -/
theorem C8_income_deciles (panel : List Obs1) :
    (∀ o ∈ addIncomeDecile panel,
      (o.gross_income = none → o.income_decile = none) ∧
      (∀ v, o.gross_income = some v → o.income_decile =
        some (qcutBin (decileBreaks (panel.filterMap (fun q => q.gross_income))) v))) ∧
    (∀ v w : ℚ, v ≤ w →
      qcutBin (decileBreaks (panel.filterMap (fun q => q.gross_income))) v ≤
        qcutBin (decileBreaks (panel.filterMap (fun q => q.gross_income))) w) ∧
    (∀ v : ℚ, 1 ≤ qcutBin (decileBreaks (panel.filterMap (fun q => q.gross_income))) v ∧
      qcutBin (decileBreaks (panel.filterMap (fun q => q.gross_income))) v ≤ 10) ∧
    ((panel.filterMap (fun q => q.gross_income)).Nodup →
      ∀ k, 1 ≤ k → k ≤ 10 →
        (panel.filterMap (fun q => q.gross_income)).length / 10 ≤
          (panel.filterMap (fun q => q.gross_income)).countP
            (fun v => qcutBin (decileBreaks (panel.filterMap
              (fun q => q.gross_income))) v = k) ∧
        (panel.filterMap (fun q => q.gross_income)).countP
            (fun v => qcutBin (decileBreaks (panel.filterMap
              (fun q => q.gross_income))) v = k) ≤
          ((panel.filterMap (fun q => q.gross_income)).length + 9) / 10) := by
  refine ⟨?_, ?_, ?_, ?_⟩
  · intro o ho
    simp only [addIncomeDecile] at ho
    obtain ⟨o1, ho1, rfl⟩ := List.mem_map.mp ho
    constructor
    · intro hnone
      have hg : o1.gross_income = none := hnone
      rw [show (Obs2.mk o1 (Option.map (qcutBin (decileBreaks (panel.filterMap
        (fun q => q.gross_income)))) o1.gross_income)).income_decile =
        Option.map (qcutBin (decileBreaks (panel.filterMap
          (fun q => q.gross_income)))) o1.gross_income from rfl, hg]
      rfl
    · intro v hv
      have hg : o1.gross_income = some v := hv
      rw [show (Obs2.mk o1 (Option.map (qcutBin (decileBreaks (panel.filterMap
        (fun q => q.gross_income)))) o1.gross_income)).income_decile =
        Option.map (qcutBin (decileBreaks (panel.filterMap
          (fun q => q.gross_income)))) o1.gross_income from rfl, hg]
      rfl
  · intro v w hvw
    exact qcutBin_mono _ hvw
  · intro v
    exact ⟨qcutBin_one_le _ v, qcutBin_le_ten _ v⟩
  · intro hnd k hk1 hk10
    exact qcut_decile_count_bounds _ hnd k hk1 hk10

/-- Witness for C8 on the concrete one-row panel: the single income 25 gets
decile 1, and decile 1 holds its one row, within the `⌊N/10⌋`-to-`⌈N/10⌉`
band. -/
theorem C8_income_deciles_witness :
    demoO2.income_decile = some (qcutBin (decileBreaks [25]) 25) ∧
    [(25 : ℚ)].length / 10 ≤
      [(25 : ℚ)].countP (fun v => qcutBin (decileBreaks [25]) v = 1) := by
  have hfm : ([demoO1].filterMap (fun q : Obs1 => q.gross_income)) = [25] := by decide
  have hmem : demoO2 ∈ addIncomeDecile [demoO1] := by
    have hbreaks : decileBreaks [25] = (List.range 9).map (fun _ => (25 : ℚ)) := by
      simp only [decileBreaks]
      have hsort : List.insertionSort (· ≤ ·) [(25 : ℚ)] = [25] := rfl
      rw [hsort]
      exact List.map_congr_left (fun j _ => quantileLinear_singleton 25 (j + 1))
    have hbin : qcutBin ((List.range 9).map (fun _ => (25 : ℚ))) 25 = 1 := by
      simp only [qcutBin]
      rw [List.countP_eq_zero.mpr]
      intro a ha
      obtain ⟨j, hj, rfl⟩ := List.mem_map.mp ha
      simp
    simp only [addIncomeDecile]
    rw [hfm]
    simp only [List.map_cons, List.map_nil]
    rw [show demoO1.gross_income = some 25 from rfl]
    rw [show Option.map (qcutBin (decileBreaks [(25 : ℚ)])) (some (25 : ℚ)) =
      some (qcutBin (decileBreaks [(25 : ℚ)]) 25) from rfl, hbreaks, hbin]
    exact List.mem_singleton.mpr rfl
  have h := C8_income_deciles [demoO1]
  constructor
  · have h1 := (h.1 demoO2 hmem).2 25 rfl
    rw [hfm] at h1
    exact h1
  · have h4 := h.2.2.2 (by rw [hfm]; decide) 1 (by norm_num) (by norm_num)
    rw [hfm] at h4
    exact h4.1

end NMG
